import Mathlib

/-!
Verification of `terraform-provider-strava`.

A shallow embedding of the provider's lifecycle handlers
(`strava/provider.go`, `strava/push_subscription_resource.go`,
`strava/push_subscriptions_data_source.go`) together with the small parts of
the Go standard library and of the Terraform plugin framework that the
handlers call, followed by theorems about them.

Conventions.

* Go strings are modelled by Lean strings. Every place where the source looks
  inside a string (`strings.Split` on `","`, `strconv.ParseInt`) inspects ASCII
  bytes only, and a byte of a multi-byte UTF-8 sequence is never an ASCII byte,
  so working on characters gives the same result as working on bytes.
* Go `int` and `int64` are modelled by `Int`; a conversion written in the
  source (`int(x)`, `int64(x)`) is kept as an explicit 64-bit wrap.
* An `error` returned by the Strava client is modelled by its `Error()` text.
* The Strava client and the wall clock are parameters of the handlers; the
  calls a handler makes on the client are recorded, in order, in a call log.
-/

/-! ## Go: conversions, `strings`, `strconv` -/

/-- Conversion of an integer value to Go `int64`: wrap to 64 bits, two's complement. -/
def int64 (x : Int) : Int := (x + 2 ^ 63) % 2 ^ 64 - 2 ^ 63

/-- Conversion of an integer value to Go `int` (64 bits wide on every supported target). -/
def int (x : Int) : Int := (x + 2 ^ 63) % 2 ^ 64 - 2 ^ 63

/-- Conversion of an integer value to Go `rune` (`int32`): wrap to 32 bits. -/
def rune (x : Int) : Int := (x + 2 ^ 31) % 2 ^ 32 - 2 ^ 31

/-- Go `string(r)` for a rune `r`: the UTF-8 text of the code point, and
U+FFFD when `r` is not a valid code point. -/
def string (r : Int) : String :=
  if 0 ≤ r ∧ (r < 0xD800 ∨ (0xDFFF < r ∧ r ≤ 0x10FFFF)) then
    String.singleton (Char.ofNat r.toNat)
  else "�"

/-- The value is representable as a Go `int64`. -/
def InInt64 (x : Int) : Prop := -(2 ^ 63) ≤ x ∧ x < 2 ^ 63

instance (x : Int) : Decidable (InInt64 x) := by unfold InInt64; infer_instance

/-- The pieces of a character sequence between the occurrences of `sep`
(`strings.Split` with a one-byte separator: one more piece than separators). -/
def strings.genSplit (sep : Char) : List Char → List (List Char)
  | [] => [[]]
  | c :: cs =>
    if c = sep then [] :: strings.genSplit sep cs
    else
      match strings.genSplit sep cs with
      | [] => [[c]]
      | p :: ps => (c :: p) :: ps

/-- Go `strings.Split(s, sep)` for a separator of one ASCII character. -/
def strings.Split (s : String) (sep : Char) : List String :=
  (strings.genSplit sep s.data).map String.mk

namespace strconv

/-- The two sentinel errors of `strconv`. -/
inductive Err where
  | ErrSyntax
  | ErrRange
  deriving DecidableEq, Repr

/-- Text of a sentinel error. -/
def Err.Error : Err → String
  | .ErrSyntax => "invalid syntax"
  | .ErrRange => "value out of range"

/-- Go `strconv.NumError`. -/
structure NumError where
  Func : String
  Num : String
  Err : Err
  deriving DecidableEq, Repr

/-- Go `(*NumError).Error`. `quote` stands for `strconv.Quote`, which is
taken as a parameter. -/
def NumError.Error (quote : String → String) (e : NumError) : String :=
  "strconv." ++ e.Func ++ ": parsing " ++ quote e.Num ++ ": " ++ e.Err.Error

def fnParseUint : String := "ParseUint"

def fnParseInt : String := "ParseInt"

def maxUint64 : Nat := 2 ^ 64 - 1

/-- Go `lower(c)`: `c | ('x' - 'X')` on a byte. -/
def lower (c : Nat) : Nat := c ||| 0x20

/-- The digit value `ParseUint` gives to one character: `'0'..'9'` count 0..9,
ASCII letters count from 10, anything else is rejected. A character outside
ASCII is a run of bytes at or above 0x80, each of which is rejected. -/
def digitVal (c : Char) : Option Nat :=
  if 48 ≤ c.toNat ∧ c.toNat ≤ 57 then some (c.toNat - 48)
  else if c.toNat < 0x80 ∧ 97 ≤ lower c.toNat ∧ lower c.toNat ≤ 122 then
    some (lower c.toNat - 97 + 10)
  else none

/-- The digit loop of `ParseUint(s, 10, 64)`: `n` is the value accumulated so
far, a `uint64`. `cutoff` is `maxUint64/10 + 1` and `maxVal` is `1<<64 - 1`. -/
def parseUintLoop : List Char → Nat → Except Err Nat
  | [], n => .ok n
  | c :: cs, n =>
    match digitVal c with
    | none => .error .ErrSyntax
    | some d =>
      if d ≥ 10 then .error .ErrSyntax
      else if n ≥ maxUint64 / 10 + 1 then .error .ErrRange
      else
        let n10 := (n * 10) % 2 ^ 64
        let n1 := (n10 + d) % 2 ^ 64
        if n1 < n10 ∨ n1 > maxUint64 then .error .ErrRange
        else parseUintLoop cs n1

/-- Go `strconv.ParseUint(s, 10, 64)`: the value and the error, if any. -/
def ParseUint (s : String) : Nat × Option NumError :=
  if s = "" then (0, some ⟨fnParseUint, s, .ErrSyntax⟩)
  else
    match parseUintLoop s.data 0 with
    | .ok n => (n, none)
    | .error .ErrSyntax => (0, some ⟨fnParseUint, s, .ErrSyntax⟩)
    | .error .ErrRange => (maxUint64, some ⟨fnParseUint, s, .ErrRange⟩)

/-- The leading sign picked off by `ParseInt`: whether the number is negative
and the rest of the text. -/
def pickSign (s : String) : Bool × String :=
  match s.data with
  | [] => (false, s)
  | c :: r =>
    if c = '+' then (false, String.mk r)
    else if c = '-' then (true, String.mk r)
    else (false, s)

/-- Go `strconv.ParseInt(s, 10, 64)`: the value and the error, if any. -/
def ParseInt (s0 : String) : Int × Option NumError :=
  if s0 = "" then (0, some ⟨fnParseInt, s0, .ErrSyntax⟩)
  else
    let (neg, s) := pickSign s0
    let (un, err) := ParseUint s
    match err with
    | some ⟨_, _, .ErrSyntax⟩ => (0, some ⟨fnParseInt, s0, .ErrSyntax⟩)
    | _ =>
      let cutoff : Nat := 2 ^ 63
      if !neg ∧ un ≥ cutoff then ((cutoff : Int) - 1, some ⟨fnParseInt, s0, .ErrRange⟩)
      else if neg ∧ un > cutoff then (-(cutoff : Int), some ⟨fnParseInt, s0, .ErrRange⟩)
      else
        let n := int64 un
        (if neg then int64 (-n) else n, none)

end strconv

/-- The canonical base-10 text of an integer: a `-` for a negative value, then
the digits without leading zeros. -/
def decimal (n : Int) : String := toString n

/-- A decimal digit, `0` to `9`. -/
def isDecimalDigit (c : Char) : Prop := 48 ≤ c.toNat ∧ c.toNat ≤ 57

instance (c : Char) : Decidable (isDecimalDigit c) := by unfold isDecimalDigit; infer_instance

/-- The number a run of decimal digits denotes, most significant digit first. -/
def digitsValue (ds : List Char) : Nat :=
  Nat.ofDigits 10 (ds.reverse.map (fun c => c.toNat - 48))

/-- The integer a text denotes in base 10: an optional sign, `+` or `-`,
followed by one or more decimal digits; `none` for any other text. -/
def base10Value (s : String) : Option Int :=
  match s.data with
  | [] => none
  | c :: r =>
    if c = '+' then
      if r ≠ [] ∧ ∀ d ∈ r, isDecimalDigit d then some (digitsValue r) else none
    else if c = '-' then
      if r ≠ [] ∧ ∀ d ∈ r, isDecimalDigit d then some (-(digitsValue r : Int)) else none
    else
      if ∀ d ∈ c :: r, isDecimalDigit d then some (digitsValue (c :: r)) else none

/-- The running value of the digit loop, without the overflow checks. -/
def digitsFold (cs : List Char) (acc : Nat) : Nat :=
  cs.foldl (fun a c => a * 10 + (c.toNat - 48)) acc

/-- The signed value `ParseInt` aims at: the value of the digits, negated after a `-`. -/
def signedValue (neg : Bool) (r : List Char) : Int :=
  if neg then -(digitsValue r : Int) else (digitsValue r : Int)

/-- The text is a base-10 integer that fits in `int64`. -/
def IsBase10Int64 (s : String) : Prop :=
  match base10Value s with
  | some n => InInt64 n
  | none => False

instance (s : String) : Decidable (IsBase10Int64 s) := by
  unfold IsBase10Int64; split <;> infer_instance

/-! ## Terraform plugin framework: diagnostics -/

namespace diag

inductive Severity where
  | Error
  | Warning
  deriving DecidableEq, Repr

/-- One diagnostic: its severity, the attribute path it is attached to (if
any), a summary and a detail. -/
structure Diagnostic where
  Severity : Severity
  Path : Option String
  Summary : String
  Detail : String
  deriving DecidableEq, Repr

abbrev Diagnostics := List Diagnostic

/-- `Diagnostics.Append`: a diagnostic already present is not added again. -/
def Diagnostics.Append (diags : Diagnostics) (more : List Diagnostic) : Diagnostics :=
  more.foldl (fun acc d => if d ∈ acc then acc else acc ++ [d]) diags

def Diagnostics.AddError (diags : Diagnostics) (summary detail : String) : Diagnostics :=
  Diagnostics.Append diags [⟨.Error, none, summary, detail⟩]

def Diagnostics.AddAttributeError (diags : Diagnostics) (path summary detail : String) :
    Diagnostics :=
  Diagnostics.Append diags [⟨.Error, some path, summary, detail⟩]

def Diagnostics.HasError (diags : Diagnostics) : Bool :=
  diags.any (fun d => d.Severity = .Error)

/-- `Diagnostics.ErrorsCount`. -/
def Diagnostics.ErrorsCount (diags : Diagnostics) : Nat :=
  diags.countP (fun d => d.Severity = .Error)

end diag

open diag

/-! ## Terraform plugin framework: attribute values and state -/

/-- A framework `types.Int64` (`basetypes.Int64Value`): null, unknown, or a
known `int64`. -/
inductive basetypes.Int64Value where
  | Null
  | Unknown
  | Value (v : Int)
  deriving DecidableEq, Repr

/-- A framework `types.String` (`basetypes.StringValue`): null, unknown, or a
known string. -/
inductive basetypes.StringValue where
  | Null
  | Unknown
  | Value (v : String)
  deriving DecidableEq, Repr

def types.Int64Value (v : Int) : basetypes.Int64Value := .Value v

def types.StringValue (v : String) : basetypes.StringValue := .Value v

/-- `ValueInt64`: the known value, and 0 for null and unknown. -/
def basetypes.Int64Value.ValueInt64 : basetypes.Int64Value → Int
  | .Value v => v
  | _ => 0

/-- `ValueString`: the known value, and the empty string for null and unknown. -/
def basetypes.StringValue.ValueString : basetypes.StringValue → String
  | .Value v => v
  | _ => ""

def basetypes.StringValue.IsNull : basetypes.StringValue → Bool
  | .Null => true
  | _ => false

def basetypes.StringValue.IsUnknown : basetypes.StringValue → Bool
  | .Unknown => true
  | _ => false

/-- The type of a schema attribute. -/
inductive attr.Type where
  | Int64Type
  | StringType
  deriving DecidableEq, Repr

/-- A Go value handed to `State.SetAttribute`. -/
inductive attr.Value where
  | ofInt64 (v : Int)
  | ofString (v : String)
  deriving DecidableEq, Repr

def attr.Value.Type : attr.Value → attr.Type
  | .ofInt64 _ => .Int64Type
  | .ofString _ => .StringType

/-- A state addressed attribute by attribute, as `ImportState` sees it: the
schema of the resource and the root attributes written so far (an attribute
that is not listed is null). -/
structure tfsdk.State where
  Schema : List (String × attr.Type)
  Attrs : List (String × attr.Value)
  deriving DecidableEq, Repr

/-- `State.SetAttribute(ctx, path.Root(name), v)`: writes the attribute when
the schema has it with the type of `v`, and reports an error otherwise. -/
def tfsdk.State.SetAttribute (st : tfsdk.State) (name : String) (v : attr.Value) :
    Diagnostics × tfsdk.State :=
  if st.Schema.lookup name = some v.Type then
    ([], { st with Attrs := st.Attrs.filter (fun a => a.1 ≠ name) ++ [(name, v)] })
  else
    ([⟨.Error, some name, "Value Conversion Error", "attribute " ++ name⟩], st)

/-- The value of a root attribute of the state, `none` when it is null. -/
def tfsdk.State.GetAttribute (st : tfsdk.State) (name : String) : Option attr.Value :=
  st.Attrs.lookup name

/-! ## `strava/push_subscription_resource.go` -/

/-- Go `pushSubscriptionResourceModel`. -/
structure pushSubscriptionResourceModel where
  ID : basetypes.Int64Value
  LastUpdated : basetypes.StringValue
  ResourceState : basetypes.Int64Value
  ApplicationID : basetypes.Int64Value
  CallbackURL : basetypes.StringValue
  VerifyToken : basetypes.StringValue
  CreatedAt : basetypes.StringValue
  UpdatedAt : basetypes.StringValue
  deriving DecidableEq, Repr

/-- The attributes declared by `pushSubscriptionResource.Schema`, with their types. -/
def pushSubscriptionResource.Schema : List (String × attr.Type) :=
  [("id", .Int64Type), ("last_updated", .StringType), ("resource_state", .Int64Type),
   ("application_id", .Int64Type), ("callback_url", .StringType),
   ("verify_token", .StringType), ("created_at", .StringType), ("updated_at", .StringType)]

structure resource.ImportStateRequest where
  ID : String
  deriving DecidableEq, Repr

structure resource.ImportStateResponse where
  Diagnostics : Diagnostics
  State : tfsdk.State
  deriving DecidableEq, Repr

/-- The response the framework hands to `ImportState`: no diagnostics and a
state of the resource's schema with every attribute null. -/
def resource.ImportStateResponse.init : resource.ImportStateResponse :=
  { Diagnostics := [], State := { Schema := pushSubscriptionResource.Schema, Attrs := [] } }

/-- Go `pushSubscriptionResource.ImportState`. `quote` stands for
`strconv.Quote`, used by the text of the parse error. `parts[0]` and
`parts[1]` are read where `parts` has at least two elements. -/
def pushSubscriptionResource.ImportState (quote : String → String)
    (req : resource.ImportStateRequest) : resource.ImportStateResponse :=
  let resp := resource.ImportStateResponse.init
  let parts := strings.Split req.ID ','
  if parts.length < 2 then
    let diags := resp.Diagnostics.AddError "Error importing item"
      ("Could not import item, unexpected error (ID should be in the format <id>,<verify_token>): "
        ++ req.ID)
    { resp with Diagnostics := diags }
  else
    let (id, err) := strconv.ParseInt (parts.getD 0 "")
    let verifyToken := parts.getD 1 ""
    match err with
    | some e =>
      let diags := resp.Diagnostics.AddError "Error importing item"
        ("Could not import item, unexpected error (The <id> part should be an integer): "
          ++ e.Error quote)
      { resp with Diagnostics := diags }
    | none =>
      let r1 := resp.State.SetAttribute "id" (.ofInt64 id)
      let resp := { resp with Diagnostics := resp.Diagnostics.Append r1.1, State := r1.2 }
      let r2 := resp.State.SetAttribute "verify_token" (.ofString verifyToken)
      { resp with Diagnostics := resp.Diagnostics.Append r2.1, State := r2.2 }

/-! ## The wall clock (`time`) -/

/-- A reading of the wall clock, as `time.Now()` returns it, in civil fields;
`Offset` is the zone offset in seconds east of UTC. -/
structure time.Time where
  Year : Nat
  Month : Nat
  Day : Nat
  Hour : Nat
  Minute : Nat
  Second : Nat
  Offset : Int
  deriving DecidableEq, Repr

/-- Go `appendInt(b, x, width)` for `x ≥ 0`: decimal digits, zero-padded on the
left to `width`. -/
def time.appendInt (x width : Nat) : String :=
  let ds := Nat.toDigits 10 x
  String.mk (List.replicate (width - ds.length) '0' ++ ds)

/-- Go `t.Format(time.RFC3339)`, layout `2006-01-02T15:04:05Z07:00`: the zone
is `Z` at offset 0 and otherwise a sign, hours and minutes. -/
def time.Time.Format (t : time.Time) : String :=
  let zone : Int := Int.tdiv t.Offset 60
  let tz : String :=
    if t.Offset = 0 then "Z"
    else
      (if zone < 0 then "-" else "+")
        ++ time.appendInt (zone.natAbs / 60) 2 ++ ":" ++ time.appendInt (zone.natAbs % 60) 2
  time.appendInt t.Year 4 ++ "-" ++ time.appendInt t.Month 2 ++ "-" ++ time.appendInt t.Day 2
    ++ "T" ++ time.appendInt t.Hour 2 ++ ":" ++ time.appendInt t.Minute 2 ++ ":"
    ++ time.appendInt t.Second 2 ++ tz

/-! ## RFC 3339 date-times, read back from their text -/

/-- The number of days of a month of the Gregorian calendar. -/
def rfc3339.daysIn (year month : Nat) : Nat :=
  if month = 2 then
    if year % 4 = 0 ∧ (year % 100 ≠ 0 ∨ year % 400 = 0) then 29 else 28
  else if month = 4 ∨ month = 6 ∨ month = 9 ∨ month = 11 then 30
  else 31

/-- A reading the wall clock can give: a date of the calendar in the years 0 to
9999, a time of day, and a zone offset of whole minutes within a day. -/
def time.Time.Valid (t : time.Time) : Prop :=
  t.Year ≤ 9999 ∧ 1 ≤ t.Month ∧ t.Month ≤ 12 ∧ 1 ≤ t.Day ∧
  t.Day ≤ rfc3339.daysIn t.Year t.Month ∧ t.Hour < 24 ∧ t.Minute < 60 ∧ t.Second < 60 ∧
  t.Offset % 60 = 0 ∧ -86400 < t.Offset ∧ t.Offset < 86400

instance (t : time.Time) : Decidable t.Valid := by
  unfold time.Time.Valid; infer_instance

/-- The number written by the `w` decimal digits at position `i` of a text,
`none` when the text has no `w` digits there. -/
def rfc3339.digits (cs : List Char) (i w : Nat) : Option Nat :=
  if ((cs.drop i).take w).length = w ∧ ∀ c ∈ (cs.drop i).take w, isDecimalDigit c then
    some (digitsValue ((cs.drop i).take w))
  else none

/-- The `time-offset` of RFC 3339, in seconds east of UTC: `Z`, or a sign
followed by `hh:mm`. -/
def rfc3339.offset (z : List Char) : Option Int :=
  if z = ['Z'] then some 0
  else
    match rfc3339.digits z 1 2, rfc3339.digits z 4 2 with
    | some hh, some mm =>
      if z.length = 6 ∧ z[3]? = some ':' ∧ hh < 24 ∧ mm < 60 then
        if z[0]? = some '+' then some (((hh * 60 + mm) * 60 : Nat) : Int)
        else if z[0]? = some '-' then some (-(((hh * 60 + mm) * 60 : Nat) : Int))
        else none
      else none
    | _, _ => none

/-- The reading an RFC 3339 `date-time` without fraction denotes:
`yyyy-mm-ddThh:mm:ss` followed by the `time-offset`, each field in its range;
`none` for any other text. -/
def rfc3339.parse (s : String) : Option time.Time :=
  match rfc3339.digits s.data 0 4, rfc3339.digits s.data 5 2, rfc3339.digits s.data 8 2,
    rfc3339.digits s.data 11 2, rfc3339.digits s.data 14 2, rfc3339.digits s.data 17 2,
    rfc3339.offset (s.data.drop 19) with
  | some year, some month, some day, some hour, some minute, some second, some off =>
    if s.data[4]? = some '-' ∧ s.data[7]? = some '-' ∧ s.data[10]? = some 'T' ∧
        s.data[13]? = some ':' ∧ s.data[16]? = some ':' ∧
        1 ≤ month ∧ month ≤ 12 ∧ 1 ≤ day ∧ day ≤ rfc3339.daysIn year month ∧
        hour < 24 ∧ minute < 60 ∧ second ≤ 60 then
      some { Year := year, Month := month, Day := day, Hour := hour, Minute := minute,
             Second := second, Offset := off }
    else none
  | _, _, _, _, _, _, _ => none

/-! ## The Strava webhook client (`strava-webhook-client-go`) -/

/-- The client library's `strava.SubscriptionItem`, with the fields the
provider reads and writes. -/
structure strava.SubscriptionItem where
  ID : Int
  ResourceState : Int
  ApplicationID : Int
  CallbackURL : String
  VerifyToken : String
  CreatedAt : String
  UpdatedAt : String
  deriving DecidableEq, Repr

/-- The integer fields of a record hold values of the `int64` range. -/
def strava.SubscriptionItem.InRange (s : strava.SubscriptionItem) : Prop :=
  InInt64 s.ID ∧ InInt64 s.ResourceState ∧ InInt64 s.ApplicationID

instance (s : strava.SubscriptionItem) : Decidable s.InRange := by
  unfold strava.SubscriptionItem.InRange; infer_instance

/-- The client library's `*strava.Client`, taken as a parameter: each method is
a function of its arguments and of the state `W` of the remote service, and
returns its result (an error is its `Error()` text) with the new state. -/
structure strava.Client (W : Type) where
  CreateSubscription : strava.SubscriptionItem → W → Except String strava.SubscriptionItem × W
  GetSubscription : Int → W → Except String strava.SubscriptionItem × W
  GetAllSubscriptions : W → Except String (List strava.SubscriptionItem) × W
  DeleteSubscription : Int → W → Option String × W

/-- One call on the client, with its arguments. -/
inductive strava.Call where
  | CreateSubscription (item : strava.SubscriptionItem)
  | GetSubscription (id : Int)
  | GetAllSubscriptions
  | DeleteSubscription (id : Int)
  deriving DecidableEq, Repr

/-- The remote service as a handler sees it: its state and the log of the
calls made on the client so far, oldest first. -/
structure strava.Remote (W : Type) where
  world : W
  calls : List strava.Call

/-- A call of `client.CreateSubscription`, logged. -/
def strava.Client.callCreate {W : Type} (c : strava.Client W) (item : strava.SubscriptionItem)
    (rem : strava.Remote W) : Except String strava.SubscriptionItem × strava.Remote W :=
  let out := c.CreateSubscription item rem.world
  (out.1, { world := out.2, calls := rem.calls ++ [.CreateSubscription item] })

/-- A call of `client.GetSubscription`, logged. -/
def strava.Client.callGet {W : Type} (c : strava.Client W) (id : Int)
    (rem : strava.Remote W) : Except String strava.SubscriptionItem × strava.Remote W :=
  let out := c.GetSubscription id rem.world
  (out.1, { world := out.2, calls := rem.calls ++ [.GetSubscription id] })

/-- A call of `client.GetAllSubscriptions`, logged. -/
def strava.Client.callGetAll {W : Type} (c : strava.Client W)
    (rem : strava.Remote W) : Except String (List strava.SubscriptionItem) × strava.Remote W :=
  let out := c.GetAllSubscriptions rem.world
  (out.1, { world := out.2, calls := rem.calls ++ [.GetAllSubscriptions] })

/-- A call of `client.DeleteSubscription`, logged. -/
def strava.Client.callDelete {W : Type} (c : strava.Client W) (id : Int)
    (rem : strava.Remote W) : Option String × strava.Remote W :=
  let out := c.DeleteSubscription id rem.world
  (out.1, { world := out.2, calls := rem.calls ++ [.DeleteSubscription id] })

/-! ## `strava/push_subscription_resource.go`: Create, Read, Update, Delete -/

/-- Go `pushSubscriptionResource`: the resource with its configured client. -/
structure pushSubscriptionResource (W : Type) where
  client : strava.Client W

/-- A plan or a prior state as a request carries it: `Get` is the outcome of
`Get(ctx, &model)`, the diagnostics of the decoding and the decoded model. -/
structure tfsdk.Data where
  Get : Diagnostics × pushSubscriptionResourceModel
  deriving DecidableEq, Repr

structure resource.CreateRequest where
  Plan : tfsdk.Data

structure resource.ReadRequest where
  State : tfsdk.Data

structure resource.UpdateRequest where
  Plan : tfsdk.Data

structure resource.DeleteRequest where
  State : tfsdk.Data

/-- The response of a lifecycle handler: its diagnostics and the model the
handler wrote with `State.Set`, `none` when the handler wrote no state. -/
structure resource.Response where
  Diagnostics : Diagnostics
  State : Option pushSubscriptionResourceModel
  deriving DecidableEq, Repr

/-- The response the framework hands to a handler. -/
def resource.Response.init : resource.Response := { Diagnostics := [], State := none }

/-- `resp.State.Set(ctx, model)` for a model of the schema's shape: the state
becomes the model and no diagnostic is reported. -/
def resource.Response.Set (resp : resource.Response) (m : pushSubscriptionResourceModel) :
    diag.Diagnostics × resource.Response :=
  ([], { resp with State := some m })

/-- Go `pushSubscriptionResource.Create`. `now` is the reading of `time.Now()`. -/
def pushSubscriptionResource.Create {W : Type} (r : pushSubscriptionResource W)
    (now : time.Time) (req : resource.CreateRequest) (rem : strava.Remote W) :
    resource.Response × strava.Remote W :=
  let resp := resource.Response.init
  let plan := req.Plan.Get.2
  let resp := { resp with Diagnostics := resp.Diagnostics.Append req.Plan.Get.1 }
  if resp.Diagnostics.HasError then (resp, rem)
  else
    match r.client.callCreate
      { ID := 0, ResourceState := 0, ApplicationID := 0,
        CallbackURL := plan.CallbackURL.ValueString,
        VerifyToken := plan.VerifyToken.ValueString,
        CreatedAt := "", UpdatedAt := "" } rem with
    | (.error err, rem) =>
      let diags := resp.Diagnostics.AddError "Error creating subscription"
        ("Could not create subscription, unexpected error: " ++ err)
      ({ resp with Diagnostics := diags }, rem)
    | (.ok pushSubscription, rem) =>
      match r.client.callGet (int pushSubscription.ID) rem with
      | (.error err, rem) =>
        let diags := resp.Diagnostics.AddError "Error reading created subscription"
          ("Could not read created subscription, unexpected error: " ++ err)
        ({ resp with Diagnostics := diags }, rem)
      | (.ok pushSubscription, rem) =>
        let plan := { plan with ID := types.Int64Value (int64 pushSubscription.ID) }
        let plan := { plan with
          ResourceState := types.Int64Value (int64 pushSubscription.ResourceState) }
        let plan := { plan with
          ApplicationID := types.Int64Value (int64 pushSubscription.ApplicationID) }
        let plan := { plan with CallbackURL := types.StringValue pushSubscription.CallbackURL }
        let plan := { plan with CreatedAt := types.StringValue pushSubscription.CreatedAt }
        let plan := { plan with UpdatedAt := types.StringValue pushSubscription.UpdatedAt }
        let plan := { plan with LastUpdated := types.StringValue now.Format }
        let out := resp.Set plan
        ({ out.2 with Diagnostics := out.2.Diagnostics.Append out.1 }, rem)

/-- Go `pushSubscriptionResource.Read`. -/
def pushSubscriptionResource.Read {W : Type} (r : pushSubscriptionResource W)
    (req : resource.ReadRequest) (rem : strava.Remote W) :
    resource.Response × strava.Remote W :=
  let resp := resource.Response.init
  let state := req.State.Get.2
  let resp := { resp with Diagnostics := resp.Diagnostics.Append req.State.Get.1 }
  if resp.Diagnostics.HasError then (resp, rem)
  else
    match r.client.callGet (int state.ID.ValueInt64) rem with
    | (.error err, rem) =>
      let diags := resp.Diagnostics.AddError "Error Reading Strava Subscription"
        ("Could not read Strava subscription ID " ++ string (rune state.ID.ValueInt64)
          ++ ": " ++ err)
      ({ resp with Diagnostics := diags }, rem)
    | (.ok pushSubscription, rem) =>
      let state := { state with
        ResourceState := types.Int64Value (int64 pushSubscription.ResourceState) }
      let state := { state with
        ApplicationID := types.Int64Value (int64 pushSubscription.ApplicationID) }
      let state := { state with CallbackURL := types.StringValue pushSubscription.CallbackURL }
      let state := { state with CreatedAt := types.StringValue pushSubscription.CreatedAt }
      let state := { state with UpdatedAt := types.StringValue pushSubscription.UpdatedAt }
      let out := resp.Set state
      ({ out.2 with Diagnostics := out.2.Diagnostics.Append out.1 }, rem)

/-- Go `pushSubscriptionResource.Update`. `now` is the reading of `time.Now()`. -/
def pushSubscriptionResource.Update {W : Type} (r : pushSubscriptionResource W)
    (now : time.Time) (req : resource.UpdateRequest) (rem : strava.Remote W) :
    resource.Response × strava.Remote W :=
  let resp := resource.Response.init
  let plan := req.Plan.Get.2
  let resp := { resp with Diagnostics := resp.Diagnostics.Append req.Plan.Get.1 }
  if resp.Diagnostics.HasError then (resp, rem)
  else
    match r.client.callDelete (int plan.ID.ValueInt64) rem with
    | (some err, rem) =>
      let diags := resp.Diagnostics.AddError "Error Deleting Strava Subscription"
        ("Could not delete subscription, unexpected error: " ++ err)
      ({ resp with Diagnostics := diags }, rem)
    | (none, rem) =>
      match r.client.callCreate
        { ID := 0, ResourceState := 0, ApplicationID := 0,
          CallbackURL := plan.CallbackURL.ValueString,
          VerifyToken := plan.VerifyToken.ValueString,
          CreatedAt := "", UpdatedAt := "" } rem with
      | (.error err, rem) =>
        let diags := resp.Diagnostics.AddError "Error creating subscription"
          ("Could not create subscription, unexpected error: " ++ err)
        ({ resp with Diagnostics := diags }, rem)
      | (.ok pushSubscription, rem) =>
        match r.client.callGet (int pushSubscription.ID) rem with
        | (.error err, rem) =>
          let diags := resp.Diagnostics.AddError "Error reading created subscription"
            ("Could not read created subscription, unexpected error: " ++ err)
          ({ resp with Diagnostics := diags }, rem)
        | (.ok pushSubscription, rem) =>
          let plan := { plan with ID := types.Int64Value (int64 pushSubscription.ID) }
          let plan := { plan with
            ResourceState := types.Int64Value (int64 pushSubscription.ResourceState) }
          let plan := { plan with
            ApplicationID := types.Int64Value (int64 pushSubscription.ApplicationID) }
          let plan := { plan with CallbackURL := types.StringValue pushSubscription.CallbackURL }
          let plan := { plan with CreatedAt := types.StringValue pushSubscription.CreatedAt }
          let plan := { plan with UpdatedAt := types.StringValue pushSubscription.UpdatedAt }
          let plan := { plan with LastUpdated := types.StringValue now.Format }
          let out := resp.Set plan
          ({ out.2 with Diagnostics := out.2.Diagnostics.Append out.1 }, rem)

/-- Go `pushSubscriptionResource.Delete`. -/
def pushSubscriptionResource.Delete {W : Type} (r : pushSubscriptionResource W)
    (req : resource.DeleteRequest) (rem : strava.Remote W) :
    resource.Response × strava.Remote W :=
  let resp := resource.Response.init
  let state := req.State.Get.2
  let resp := { resp with Diagnostics := resp.Diagnostics.Append req.State.Get.1 }
  if resp.Diagnostics.HasError then (resp, rem)
  else
    match r.client.callDelete (int state.ID.ValueInt64) rem with
    | (some err, rem) =>
      let diags := resp.Diagnostics.AddError "Error Deleting Strava Subscription"
        ("Could not delete subscription, unexpected error: " ++ err)
      ({ resp with Diagnostics := diags }, rem)
    | (none, rem) => (resp, rem)

/-! ## `strava/push_subscriptions_data_source.go` -/

/-- Go `pushSubscriptionsModel`. -/
structure pushSubscriptionsModel where
  ID : basetypes.Int64Value
  ResourceState : basetypes.Int64Value
  ApplicationID : basetypes.Int64Value
  CallbackURL : basetypes.StringValue
  CreatedAt : basetypes.StringValue
  UpdatedAt : basetypes.StringValue
  deriving DecidableEq, Repr

/-- Go `append(s, x)` on a slice, where `none` is the nil slice: the result is
never nil. -/
def builtin.append {α : Type} (s : Option (List α)) (x : α) : Option (List α) :=
  some (s.getD [] ++ [x])

/-- Go `pushSubscriptionsDataSourceModel`. `PushSubscriptions` is a Go slice:
`none` is the nil slice, which is the zero value of the field. -/
structure pushSubscriptionsDataSourceModel where
  ID : basetypes.StringValue
  PushSubscriptions : Option (List pushSubscriptionsModel)
  deriving DecidableEq, Repr

/-- A framework list value (`basetypes.ListValue`): null, unknown, or a known
list of elements. -/
inductive basetypes.ListValue (α : Type) where
  | Null
  | Unknown
  | Value (elements : List α)
  deriving DecidableEq, Repr

/-- The state of the data source as the framework stores it, attribute by
attribute: `id` and `push_subscriptions`. -/
structure pushSubscriptionsDataSourceState where
  id : basetypes.StringValue
  push_subscriptions : basetypes.ListValue pushSubscriptionsModel
  deriving DecidableEq, Repr

/-- Go `pushSubscriptionsDataSource`: the data source with its configured client. -/
structure pushSubscriptionsDataSource (W : Type) where
  client : strava.Client W

/-- The response of the data source's `Read`: its diagnostics and the state
written with `State.Set`, `none` when no state was written. -/
structure datasource.ReadResponse where
  Diagnostics : Diagnostics
  State : Option pushSubscriptionsDataSourceState
  deriving DecidableEq, Repr

def datasource.ReadResponse.init : datasource.ReadResponse :=
  { Diagnostics := [], State := none }

/-- `resp.State.Set(ctx, &state)` for a model of the schema's shape: a nil
slice is written as a null list and any other slice as the list of its
elements. -/
def datasource.ReadResponse.Set (resp : datasource.ReadResponse)
    (m : pushSubscriptionsDataSourceModel) : diag.Diagnostics × datasource.ReadResponse :=
  let list : basetypes.ListValue pushSubscriptionsModel :=
    match m.PushSubscriptions with
    | none => .Null
    | some elements => .Value elements
  ([], { resp with State := some { id := m.ID, push_subscriptions := list } })

/-- The body of the `for ... range` loop of `Read`: the projection of one
remote record, appended to the slice built so far. -/
def pushSubscriptionsDataSource.appendSubscription (state : pushSubscriptionsDataSourceModel)
    (subscription : strava.SubscriptionItem) : pushSubscriptionsDataSourceModel :=
  let subscriptionState : pushSubscriptionsModel :=
    { ID := types.Int64Value (int64 subscription.ID),
      ResourceState := types.Int64Value (int64 subscription.ResourceState),
      ApplicationID := types.Int64Value (int64 subscription.ApplicationID),
      CallbackURL := types.StringValue subscription.CallbackURL,
      CreatedAt := types.StringValue subscription.CreatedAt,
      UpdatedAt := types.StringValue subscription.UpdatedAt }
  { state with PushSubscriptions := builtin.append state.PushSubscriptions subscriptionState }

/-- Go `pushSubscriptionsDataSource.Read`. `var state` is the zero value of the
model: a null `ID` and a nil slice, which stays nil when the loop runs over no
record. -/
def pushSubscriptionsDataSource.Read {W : Type} (d : pushSubscriptionsDataSource W)
    (rem : strava.Remote W) : datasource.ReadResponse × strava.Remote W :=
  let resp := datasource.ReadResponse.init
  let state : pushSubscriptionsDataSourceModel := { ID := .Null, PushSubscriptions := none }
  match d.client.callGetAll rem with
  | (.error err, rem) =>
    let diags := resp.Diagnostics.AddError "Unable to Read Strava Subscriptions" err
    ({ resp with Diagnostics := diags }, rem)
  | (.ok pushSubscriptions, rem) =>
    let state := pushSubscriptions.foldl pushSubscriptionsDataSource.appendSubscription state
    let state := { state with ID := types.StringValue "placeholder" }
    let out := resp.Set state
    ({ out.2 with Diagnostics := out.2.Diagnostics.Append out.1 }, rem)

/-! ## `strava/provider.go` -/

/-- Go `stravaProviderModel`. -/
structure stravaProviderModel where
  ClientId : basetypes.StringValue
  ClientSecret : basetypes.StringValue
  deriving DecidableEq, Repr

/-- The provider configuration as the request carries it: `Get` is the outcome
of `req.Config.Get(ctx, &config)`. -/
structure provider.ConfigureRequest where
  Get : Diagnostics × stravaProviderModel
  deriving DecidableEq, Repr

/-- The response of `Configure` over clients of type `C`, and, in `NewClient`,
the arguments of every call of `strava.NewClient` the handler made. -/
structure provider.ConfigureResponse (C : Type) where
  Diagnostics : Diagnostics
  DataSourceData : Option C
  ResourceData : Option C
  NewClient : List (String × String)

/-- Go `stravaProvider.Configure`. `Getenv` is `os.Getenv` (the empty string
for a variable that is not set) and `NewClient` is the client library's
`strava.NewClient(nil, &clientId, &clientSecret)`, both taken as parameters.
The logging calls have no effect on the response and are left out. -/
def stravaProvider.Configure {C : Type} (Getenv : String → String)
    (NewClient : String → String → Except String C) (req : provider.ConfigureRequest) :
    provider.ConfigureResponse C :=
  let resp : provider.ConfigureResponse C :=
    { Diagnostics := [], DataSourceData := none, ResourceData := none, NewClient := [] }
  let config := req.Get.2
  let resp := { resp with Diagnostics := resp.Diagnostics.Append req.Get.1 }
  if resp.Diagnostics.HasError then resp
  else
    let diags := resp.Diagnostics
    let diags :=
      if config.ClientId.IsUnknown then
        diags.AddAttributeError "client_id" "Unknown Strava API Client ID"
          ("The provider cannot create the Strava API client as there is an unknown configuration value for the Strava API Client ID. "
            ++ "Either target apply the source of the value first, set the value statically in the configuration, or use the STRAVA_CLIENT_ID environment variable.")
      else diags
    let diags :=
      if config.ClientSecret.IsUnknown then
        diags.AddAttributeError "client_secret" "Unknown Strava API Client Secret"
          ("The provider cannot create the Strava API client as there is an unknown configuration value for the Strava API Client Secret. "
            ++ "Either target apply the source of the value first, set the value statically in the configuration, or use the STRAVA_CLIENT_SECRET environment variable.")
      else diags
    let resp := { resp with Diagnostics := diags }
    if resp.Diagnostics.HasError then resp
    else
      let clientId := Getenv "STRAVA_CLIENT_ID"
      let clientSecret := Getenv "STRAVA_CLIENT_SECRET"
      let clientId := if !config.ClientId.IsNull then config.ClientId.ValueString else clientId
      let clientSecret :=
        if !config.ClientSecret.IsNull then config.ClientSecret.ValueString else clientSecret
      let diags := resp.Diagnostics
      let diags :=
        if clientId = "" then
          diags.AddAttributeError "client_id" "Missing Strava API Client ID"
            ("The provider cannot create the Strava API client as there is a missing or empty value for the Strava API Client ID. "
              ++ "Set the client_id value in the configuration or use the STRAVA_CLIENT_ID environment variable. "
              ++ "If either is already set, ensure the value is not empty.")
        else diags
      let diags :=
        if clientSecret = "" then
          diags.AddAttributeError "client_secret" "Missing Strava API Client Secret"
            ("The provider cannot create the Strava API client as there is a missing or empty value for the Strava API Client Secret. "
              ++ "Set the client_secret value in the configuration or use the STRAVA_CLIENT_SECRET environment variable. "
              ++ "If either is already set, ensure the value is not empty.")
        else diags
      let resp := { resp with Diagnostics := diags }
      if resp.Diagnostics.HasError then resp
      else
        let resp := { resp with NewClient := resp.NewClient ++ [(clientId, clientSecret)] }
        match NewClient clientId clientSecret with
        | .error err =>
          let diags := resp.Diagnostics.AddError "Unable to Create Strava API Client"
            ("An unexpected error occurred when creating the Strava API client. "
              ++ "If the error is not clear, please contact the provider developers.\n\n"
              ++ "Strava Client Error: " ++ err)
          { resp with Diagnostics := diags }
        | .ok client =>
          let resp := { resp with DataSourceData := some client }
          { resp with ResourceData := some client }

/-! ## Names used by the statements about `Configure` -/

/-- The resolved value of a credential: the explicit configuration value when
there is one, and otherwise the value of its environment variable. -/
def resolvedCredential (explicit : basetypes.StringValue) (env : String) : String :=
  match explicit with
  | .Value v => v
  | _ => env

/-- The entry `Configure` reports for an unknown `client_id`. -/
def stravaProvider.unknownClientId : Diagnostic :=
  ⟨.Error, some "client_id", "Unknown Strava API Client ID",
    "The provider cannot create the Strava API client as there is an unknown configuration value for the Strava API Client ID. "
      ++ "Either target apply the source of the value first, set the value statically in the configuration, or use the STRAVA_CLIENT_ID environment variable."⟩

/-- The entry `Configure` reports for an unknown `client_secret`. -/
def stravaProvider.unknownClientSecret : Diagnostic :=
  ⟨.Error, some "client_secret", "Unknown Strava API Client Secret",
    "The provider cannot create the Strava API client as there is an unknown configuration value for the Strava API Client Secret. "
      ++ "Either target apply the source of the value first, set the value statically in the configuration, or use the STRAVA_CLIENT_SECRET environment variable."⟩

/-- The entry `Configure` reports for a `client_id` that is empty after resolution. -/
def stravaProvider.missingClientId : Diagnostic :=
  ⟨.Error, some "client_id", "Missing Strava API Client ID",
    "The provider cannot create the Strava API client as there is a missing or empty value for the Strava API Client ID. "
      ++ "Set the client_id value in the configuration or use the STRAVA_CLIENT_ID environment variable. "
      ++ "If either is already set, ensure the value is not empty."⟩

/-- The entry `Configure` reports for a `client_secret` that is empty after resolution. -/
def stravaProvider.missingClientSecret : Diagnostic :=
  ⟨.Error, some "client_secret", "Missing Strava API Client Secret",
    "The provider cannot create the Strava API client as there is a missing or empty value for the Strava API Client Secret. "
      ++ "Set the client_secret value in the configuration or use the STRAVA_CLIENT_SECRET environment variable. "
      ++ "If either is already set, ensure the value is not empty."⟩

/-- One validation pass of `Configure` over the two credential fields: the
entry `d1` is appended when `c1` holds and then the entry `d2` when `c2` holds. -/
def stravaProvider.checkBoth (ds : Diagnostics) (c1 c2 : Prop) [Decidable c1] [Decidable c2]
    (d1 d2 : Diagnostic) : Diagnostics :=
  let ds := if c1 then Diagnostics.Append ds [d1] else ds
  if c2 then Diagnostics.Append ds [d2] else ds

/-! ## Two small clients, used to evaluate the handlers on concrete inputs -/

/-- A remote service kept in memory: its state is the list of its
subscriptions; a new subscription is numbered one more than the number of
subscriptions there are, and the create call answers with the new id only. -/
def strava.memoryClient : strava.Client (List strava.SubscriptionItem) where
  CreateSubscription := fun item w =>
    (.ok { ID := w.length + 1, ResourceState := 0, ApplicationID := 0, CallbackURL := "",
           VerifyToken := "", CreatedAt := "", UpdatedAt := "" },
     w ++ [{ item with ID := w.length + 1, ResourceState := 2, ApplicationID := 5,
                       CreatedAt := "2026-01-01T00:00:00Z",
                       UpdatedAt := "2026-01-01T00:00:00Z" }])
  GetSubscription := fun id w =>
    match w.find? (fun s => s.ID = id) with
    | some s => (.ok s, w)
    | none => (.error "subscription not found", w)
  GetAllSubscriptions := fun w => (.ok w, w)
  DeleteSubscription := fun id w =>
    if w.any (fun s => s.ID = id) then (none, w.filter (fun s => s.ID ≠ id))
    else (some "subscription not found", w)

/-- A remote service that holds at most one subscription per application and
answers every `GetSubscription` with the one it holds. -/
def strava.singleClient : strava.Client (Option strava.SubscriptionItem) where
  CreateSubscription := fun item w =>
    match w with
    | some _ => (.error "subscription already exists", w)
    | none =>
      (.ok { item with ID := 7 },
       some { item with ID := 7, ResourceState := 2, ApplicationID := 5,
                        CreatedAt := "2026-01-01T00:00:00Z",
                        UpdatedAt := "2026-01-01T00:00:00Z" })
  GetSubscription := fun _ w =>
    match w with
    | some s => (.ok s, w)
    | none => (.error "subscription not found", w)
  GetAllSubscriptions := fun w => (.ok w.toList, w)
  DeleteSubscription := fun _ w =>
    match w with
    | some _ => (none, none)
    | none => (some "subscription not found", w)

/-- A client that answers every call with a fixed result and keeps no state. -/
def strava.fixedClient (create get : Except String strava.SubscriptionItem)
    (all : Except String (List strava.SubscriptionItem)) (delete : Option String) :
    strava.Client Unit where
  CreateSubscription := fun _ w => (create, w)
  GetSubscription := fun _ w => (get, w)
  GetAllSubscriptions := fun w => (all, w)
  DeleteSubscription := fun _ w => (delete, w)

/-- A plan for a new subscription: the two required attributes are set and
every computed attribute is unknown. -/
def examplePlan : pushSubscriptionResourceModel :=
  { ID := .Unknown, LastUpdated := .Unknown, ResourceState := .Unknown,
    ApplicationID := .Unknown, CallbackURL := .Value "https://example.com/hook",
    VerifyToken := .Value "t0k3n", CreatedAt := .Unknown, UpdatedAt := .Unknown }

/-- A record of the remote service, with id 1. -/
def exampleRecord : strava.SubscriptionItem :=
  { ID := 1, ResourceState := 2, ApplicationID := 5, CallbackURL := "https://example.com/hook",
    VerifyToken := "t0k3n", CreatedAt := "2026-01-01T00:00:00Z",
    UpdatedAt := "2026-01-01T00:00:00Z" }

/-- The state held for `exampleRecord`. -/
def exampleState : pushSubscriptionResourceModel :=
  { ID := .Value 1, LastUpdated := .Value "2026-01-01T00:00:01Z", ResourceState := .Value 2,
    ApplicationID := .Value 5, CallbackURL := .Value "https://example.com/hook",
    VerifyToken := .Value "t0k3n", CreatedAt := .Value "2026-01-01T00:00:00Z",
    UpdatedAt := .Value "2026-01-01T00:00:00Z" }

/-- A reading of the clock: 4 November 2026, 10:11:12 UTC. -/
def exampleNow : time.Time :=
  { Year := 2026, Month := 11, Day := 4, Hour := 10, Minute := 11, Second := 12, Offset := 0 }

/-- A record of the remote service, with id 7. -/
def exampleRecord7 : strava.SubscriptionItem :=
  { ID := 7, ResourceState := 2, ApplicationID := 5, CallbackURL := "https://example.com/hook",
    VerifyToken := "t0k3n", CreatedAt := "2026-01-01T00:00:00Z",
    UpdatedAt := "2026-01-01T00:00:00Z" }

/-! # Theorems -/

/-! ## Lemmas on `strings.Split` -/

theorem strings.genSplit_ne_nil (sep : Char) (cs : List Char) : strings.genSplit sep cs ≠ [] := by
  cases cs with
  | nil => simp [strings.genSplit]
  | cons c cs =>
    unfold strings.genSplit
    split
    · simp
    · split <;> simp

theorem strings.genSplit_length (sep : Char) (cs : List Char) :
    (strings.genSplit sep cs).length = cs.count sep + 1 := by
  induction cs with
  | nil => simp [strings.genSplit]
  | cons c cs ih =>
    unfold strings.genSplit
    by_cases h : c = sep
    · subst h; simp [ih]
    · have hc : (c == sep) = false := by simpa using h
      rw [if_neg h, List.count_cons, hc]
      have hne := strings.genSplit_ne_nil sep cs
      split
      · contradiction
      · rename_i p ps heq
        rw [heq] at ih
        simpa using ih

theorem strings.genSplit_of_not_mem (sep : Char) (cs : List Char) (h : sep ∉ cs) :
    strings.genSplit sep cs = [cs] := by
  induction cs with
  | nil => simp [strings.genSplit]
  | cons c cs ih =>
    have hc : c ≠ sep := fun e => h (by simp [e])
    have hcs : sep ∉ cs := fun e => h (by simp [e])
    unfold strings.genSplit
    rw [if_neg hc, ih hcs]

theorem strings.genSplit_append (sep : Char) (a b : List Char) (h : sep ∉ a) :
    strings.genSplit sep (a ++ sep :: b) = a :: strings.genSplit sep b := by
  induction a with
  | nil => simp [strings.genSplit]
  | cons c cs ih =>
    have hc : c ≠ sep := fun e => h (by simp [e])
    have hcs : sep ∉ cs := fun e => h (by simp [e])
    rw [List.cons_append]
    conv => lhs; unfold strings.genSplit
    rw [if_neg hc, ih hcs]

theorem strings.Split_length (s : String) (sep : Char) :
    (strings.Split s sep).length = s.data.count sep + 1 := by
  simp [strings.Split, strings.genSplit_length]

theorem strings.Split_length_lt_two (s : String) (sep : Char) :
    (strings.Split s sep).length < 2 ↔ sep ∉ s.data := by
  rw [strings.Split_length]
  constructor
  · intro h
    have : s.data.count sep = 0 := by omega
    exact List.count_eq_zero.mp this
  · intro h
    have : s.data.count sep = 0 := List.count_eq_zero.mpr h
    omega

/-! ## Lemmas on `strconv.ParseInt` -/

theorem digitsFold_ge (cs : List Char) : ∀ acc : Nat, acc ≤ digitsFold cs acc := by
  induction cs with
  | nil => intro acc; simp [digitsFold]
  | cons c cs ih =>
    intro acc
    have h := ih (acc * 10 + (c.toNat - 48))
    simp only [digitsFold, List.foldl_cons] at h ⊢
    omega

theorem digitsFold_eq (cs : List Char) : ∀ acc : Nat,
    digitsFold cs acc = acc * 10 ^ cs.length + digitsValue cs := by
  induction cs with
  | nil => intro acc; simp [digitsFold, digitsValue]
  | cons c cs ih =>
    intro acc
    have h := ih (acc * 10 + (c.toNat - 48))
    simp only [digitsFold, List.foldl_cons] at h ⊢
    rw [h]
    simp only [digitsValue, List.reverse_cons, List.map_append, List.map_cons, List.map_nil,
      Nat.ofDigits_append, Nat.ofDigits_singleton, List.length_map, List.length_reverse,
      List.length_cons]
    ring

theorem digitsFold_zero (cs : List Char) : digitsFold cs 0 = digitsValue cs := by
  simp [digitsFold_eq]

theorem strconv.digitVal_of_digit (c : Char) (h : isDecimalDigit c) :
    strconv.digitVal c = some (c.toNat - 48) := by
  unfold isDecimalDigit at h
  simp [strconv.digitVal, h]

theorem strconv.parseUintLoop_not_digit (c : Char) (cs : List Char) (n : Nat)
    (h : ¬ isDecimalDigit c) : strconv.parseUintLoop (c :: cs) n = .error .ErrSyntax := by
  unfold isDecimalDigit at h
  unfold strconv.parseUintLoop strconv.digitVal
  rw [if_neg h]
  split
  · rfl
  · rename_i d heq
    split at heq
    · have hd : d ≥ 10 := by
        have := Option.some.inj heq
        omega
      rw [if_pos hd]
    · cases heq

theorem strconv.parseUintLoop_ok_iff (cs : List Char) : ∀ n m : Nat, n < 2 ^ 64 →
    (strconv.parseUintLoop cs n = .ok m ↔
      (∀ c ∈ cs, isDecimalDigit c) ∧ digitsFold cs n = m ∧ m < 2 ^ 64) := by
  induction cs with
  | nil =>
    intro n m hn
    simp only [strconv.parseUintLoop, digitsFold, List.foldl_nil, List.not_mem_nil,
      false_implies, implies_true, true_and, Except.ok.injEq]
    constructor
    · rintro rfl; exact ⟨rfl, hn⟩
    · rintro ⟨h, _⟩; exact h
  | cons c cs ih =>
    intro n m hn
    by_cases hd : isDecimalDigit c
    · have hge := digitsFold_ge cs (n * 10 + (c.toNat - 48))
      have hc : c.toNat - 48 < 10 := by unfold isDecimalDigit at hd; omega
      unfold strconv.parseUintLoop
      rw [strconv.digitVal_of_digit c hd]
      simp only [strconv.maxUint64, List.mem_cons, forall_eq_or_imp, hd, true_and, digitsFold,
        List.foldl_cons]
      simp only [digitsFold] at hge ih
      rw [if_neg (by omega)]
      by_cases h1 : n ≥ (2 ^ 64 - 1) / 10 + 1
      · rw [if_pos h1]
        constructor
        · intro h; cases h
        · rintro ⟨_, h2, h3⟩; omega
      · rw [if_neg h1]
        by_cases h2 : n * 10 + (c.toNat - 48) < 2 ^ 64
        · have e1 : n * 10 % 2 ^ 64 = n * 10 := Nat.mod_eq_of_lt (by omega)
          have e2 : (n * 10 + (c.toNat - 48)) % 2 ^ 64 = n * 10 + (c.toNat - 48) :=
            Nat.mod_eq_of_lt h2
          rw [e1, e2, if_neg (by omega)]
          exact ih _ m h2
        · have e1 : n * 10 % 2 ^ 64 = n * 10 := Nat.mod_eq_of_lt (by omega)
          rw [e1, if_pos (by omega)]
          constructor
          · intro h; cases h
          · rintro ⟨_, h3, h4⟩; omega
    · rw [strconv.parseUintLoop_not_digit c cs n hd]
      constructor
      · intro h; cases h
      · rintro ⟨h, _⟩; exact absurd (h c (List.mem_cons_self _ _)) hd

theorem strconv.ParseUint_cases (s : String) :
    (s ≠ "" ∧ ∃ n, strconv.parseUintLoop s.data 0 = .ok n ∧ strconv.ParseUint s = (n, none)) ∨
    ((s = "" ∨ ∃ e, strconv.parseUintLoop s.data 0 = .error e) ∧
      (strconv.ParseUint s = (0, some ⟨strconv.fnParseUint, s, .ErrSyntax⟩) ∨
        strconv.ParseUint s = (strconv.maxUint64, some ⟨strconv.fnParseUint, s, .ErrRange⟩))) := by
  unfold strconv.ParseUint
  by_cases hs : s = ""
  · right; rw [if_pos hs]; exact ⟨Or.inl hs, Or.inl rfl⟩
  · rw [if_neg hs]
    cases hl : strconv.parseUintLoop s.data 0 with
    | ok n => left; exact ⟨hs, n, rfl, rfl⟩
    | error e =>
      right
      refine ⟨Or.inr ⟨e, rfl⟩, ?_⟩
      cases e
      · left; rfl
      · right; rfl

theorem String.mk_eq_empty_iff (r : List Char) : String.mk r = "" ↔ r = [] := by
  constructor
  · intro h; exact congrArg String.data h
  · rintro rfl; rfl

theorem strconv.ParseInt_core (s0 : String) (neg : Bool) (r : List Char) (h0 : s0 ≠ "")
    (hp : strconv.pickSign s0 = (neg, String.mk r)) :
    ((r ≠ [] ∧ (∀ d ∈ r, isDecimalDigit d) ∧ InInt64 (signedValue neg r)) →
      strconv.ParseInt s0 = (signedValue neg r, none)) ∧
    (¬ (r ≠ [] ∧ (∀ d ∈ r, isDecimalDigit d) ∧ InInt64 (signedValue neg r)) →
      (strconv.ParseInt s0).2 ≠ none) := by
  have hiff := strconv.parseUintLoop_ok_iff r 0
  simp only [digitsFold_zero] at hiff
  have hno : (String.mk r = "" ∨ ∃ e, strconv.parseUintLoop (String.mk r).data 0 = .error e) →
      ¬ (r ≠ [] ∧ (∀ d ∈ r, isDecimalDigit d) ∧ InInt64 (signedValue neg r)) := by
    rintro hbad ⟨hr, hall, hin⟩
    rcases hbad with he | ⟨e, he⟩
    · exact hr ((String.mk_eq_empty_iff r).mp he)
    · have hlt : digitsValue r < 2 ^ 64 := by
        unfold InInt64 signedValue at hin
        cases neg
        · simp only [Bool.false_eq_true, if_false] at hin; omega
        · simp only [if_true] at hin; omega
      have hok := (hiff (digitsValue r) (by norm_num)).mpr ⟨hall, rfl, hlt⟩
      simp only at he
      rw [hok] at he
      cases he
  rcases strconv.ParseUint_cases (String.mk r) with ⟨hne, n, hloop, hpu⟩ | ⟨hbad, hpu | hpu⟩
  · have hr : r ≠ [] := fun e => hne ((String.mk_eq_empty_iff r).mpr e)
    obtain ⟨hall, hval, hlt⟩ := (hiff n (by norm_num)).mp hloop
    have hP : strconv.ParseInt s0 =
        if (!neg) ∧ n ≥ 2 ^ 63 then (((2 ^ 63 : Nat) : Int) - 1, some ⟨strconv.fnParseInt, s0, .ErrRange⟩)
        else if neg ∧ n > 2 ^ 63 then (-((2 ^ 63 : Nat) : Int), some ⟨strconv.fnParseInt, s0, .ErrRange⟩)
        else (if neg then int64 (-(int64 n)) else int64 n, none) := by
      simp only [strconv.ParseInt, if_neg h0, hp, hpu]
    rw [hP]
    unfold signedValue InInt64
    rw [hval]
    cases neg
    · simp only [Bool.not_false, true_and, Bool.false_eq_true, false_and, if_false]
      constructor
      · rintro ⟨_, _, h1, h2⟩
        rw [if_neg (by omega)]
        simp only [int64, Prod.mk.injEq, and_true]
        omega
      · intro h
        have : n ≥ 2 ^ 63 := by
          by_contra hc
          exact h ⟨hr, hall, by omega, by omega⟩
        rw [if_pos this]
        simp
    · simp only [Bool.not_true, Bool.false_eq_true, false_and, if_false, true_and, if_true]
      constructor
      · rintro ⟨_, _, h1, h2⟩
        rw [if_neg (by omega)]
        simp only [int64, Prod.mk.injEq, and_true]
        omega
      · intro h
        have : n > 2 ^ 63 := by
          by_contra hc
          exact h ⟨hr, hall, by omega, by omega⟩
        rw [if_pos this]
        simp
  · refine ⟨fun h => absurd h (hno hbad), fun _ => ?_⟩
    simp [strconv.ParseInt, h0, hp, hpu]
  · refine ⟨fun h => absurd h (hno hbad), fun _ => ?_⟩
    cases neg <;> simp [strconv.ParseInt, h0, hp, hpu, strconv.maxUint64]

theorem strconv.ParseInt_base10_aux (s : String) (neg : Bool) (r : List Char) (h0 : s ≠ "")
    (hp : strconv.pickSign s = (neg, String.mk r))
    (hb : base10Value s =
      if r ≠ [] ∧ ∀ d ∈ r, isDecimalDigit d then some (signedValue neg r) else none) :
    (∀ n, base10Value s = some n → InInt64 n → strconv.ParseInt s = (n, none)) ∧
    (¬ IsBase10Int64 s → (strconv.ParseInt s).2 ≠ none) := by
  obtain ⟨h1, h2⟩ := strconv.ParseInt_core s neg r h0 hp
  constructor
  · intro n hn hin
    rw [hb] at hn
    split at hn
    · rename_i hc
      cases hn
      exact h1 ⟨hc.1, hc.2, hin⟩
    · cases hn
  · intro hnot
    apply h2
    rintro ⟨hr, hall, hin⟩
    apply hnot
    unfold IsBase10Int64
    rw [hb, if_pos ⟨hr, hall⟩]
    exact hin

theorem strconv.ParseInt_base10 (s : String) :
    (∀ n, base10Value s = some n → InInt64 n → strconv.ParseInt s = (n, none)) ∧
    (¬ IsBase10Int64 s → (strconv.ParseInt s).2 ≠ none) := by
  rcases hdata : s.data with _ | ⟨c, r⟩
  · have hs : s = "" := by
      cases s; simp only at hdata; subst hdata; rfl
    subst hs
    exact ⟨fun n h => by simp [base10Value] at h, fun _ => by simp [strconv.ParseInt]⟩
  · have h0 : s ≠ "" := by
      intro e; subst e; simp at hdata
    by_cases hplus : c = '+'
    · apply strconv.ParseInt_base10_aux s false r h0
      · simp [strconv.pickSign, hdata, hplus]
      · simp [base10Value, hdata, hplus, signedValue]
    · by_cases hminus : c = '-'
      · apply strconv.ParseInt_base10_aux s true r h0
        · simp [strconv.pickSign, hdata, hminus]
        · simp [base10Value, hdata, hminus, signedValue]
      · apply strconv.ParseInt_base10_aux s false (c :: r) h0
        · have : s = String.mk (c :: r) := by
            cases s; simp only at hdata; subst hdata; rfl
          simp only [strconv.pickSign, hdata, if_neg hplus, if_neg hminus]
          rw [← this]
        · simp only [base10Value, hdata, if_neg hplus, if_neg hminus, signedValue]
          simp

/-- `ParseInt` reports no error exactly on the base-10 integers that fit in `int64`. -/
theorem strconv.ParseInt_err_eq_none_iff (s : String) :
    (strconv.ParseInt s).2 = none ↔ IsBase10Int64 s := by
  constructor
  · intro h
    by_contra hc
    exact (strconv.ParseInt_base10 s).2 hc h
  · intro h
    unfold IsBase10Int64 at h
    split at h
    · rename_i n hn
      rw [(strconv.ParseInt_base10 s).1 n hn h]
    · exact absurd h id

/-! ## Lemmas on `decimal` -/

theorem digitChar_decimal : ∀ k : Nat, k < 10 →
    isDecimalDigit (Nat.digitChar k) ∧ (Nat.digitChar k).toNat - 48 = k := by
  decide

theorem toDigitsCore_decimal (fuel : Nat) : ∀ (n : Nat) (acc : List Char), n < fuel →
    ∃ ds, Nat.toDigitsCore 10 fuel n acc = ds ++ acc ∧ ds ≠ [] ∧
      (∀ c ∈ ds, isDecimalDigit c) ∧ digitsFold ds 0 = n := by
  induction fuel with
  | zero => intro n acc h; omega
  | succ fuel ih =>
    intro n acc h
    have hd := digitChar_decimal (n % 10) (Nat.mod_lt _ (by norm_num))
    unfold Nat.toDigitsCore
    simp only
    by_cases hz : n / 10 = 0
    · rw [if_pos hz]
      refine ⟨[Nat.digitChar (n % 10)], rfl, by simp, ?_, ?_⟩
      · intro c hc
        simp only [List.mem_singleton] at hc
        subst hc
        exact hd.1
      · simp only [digitsFold, List.foldl_cons, List.foldl_nil]
        omega
    · rw [if_neg hz]
      obtain ⟨ds, h1, h2, h3, h4⟩ := ih (n / 10) (Nat.digitChar (n % 10) :: acc) (by omega)
      refine ⟨ds ++ [Nat.digitChar (n % 10)], by rw [h1]; simp, by simp, ?_, ?_⟩
      · intro c hc
        rcases List.mem_append.mp hc with hc | hc
        · exact h3 c hc
        · simp only [List.mem_singleton] at hc
          subst hc
          exact hd.1
      · simp only [digitsFold, List.foldl_append, List.foldl_cons, List.foldl_nil] at h4 ⊢
        rw [h4]
        omega

theorem toDigits_decimal (n : Nat) :
    Nat.toDigits 10 n ≠ [] ∧ (∀ c ∈ Nat.toDigits 10 n, isDecimalDigit c) ∧
      digitsValue (Nat.toDigits 10 n) = n := by
  obtain ⟨ds, h1, h2, h3, h4⟩ := toDigitsCore_decimal (n + 1) n [] (by omega)
  simp only [List.append_nil] at h1
  unfold Nat.toDigits
  rw [h1]
  exact ⟨h2, h3, by rw [← digitsFold_zero]; exact h4⟩

theorem decimal_data (n : Int) :
    (decimal n).data =
      if n < 0 then '-' :: Nat.toDigits 10 n.natAbs else Nat.toDigits 10 n.natAbs := by
  cases n with
  | ofNat m =>
    have : ¬ (Int.ofNat m < 0) := by simp
    rw [if_neg this]
    rfl
  | negSucc m =>
    have : Int.negSucc m < 0 := Int.negSucc_lt_zero m
    rw [if_pos this]
    rfl

theorem isDecimalDigit_ne (c : Char) (h : isDecimalDigit c) :
    c ≠ ',' ∧ c ≠ '+' ∧ c ≠ '-' := by
  unfold isDecimalDigit at h
  refine ⟨?_, ?_, ?_⟩ <;> (rintro rfl; revert h; decide)

theorem decimal_no_comma (n : Int) : ',' ∉ (decimal n).data := by
  obtain ⟨_, hall, _⟩ := toDigits_decimal n.natAbs
  rw [decimal_data]
  intro hmem
  split at hmem
  · rcases List.mem_cons.mp hmem with h | h
    · revert h; decide
    · exact (isDecimalDigit_ne _ (hall _ h)).1 rfl
  · exact (isDecimalDigit_ne _ (hall _ hmem)).1 rfl

theorem base10Value_decimal (n : Int) : base10Value (decimal n) = some n := by
  obtain ⟨hne, hall, hval⟩ := toDigits_decimal n.natAbs
  unfold base10Value
  rw [decimal_data]
  by_cases hn : n < 0
  · rw [if_pos hn]
    simp only
    rw [if_neg (by decide), if_pos trivial, if_pos ⟨hne, hall⟩, hval]
    congr 1
    omega
  · rw [if_neg hn]
    rcases hds : Nat.toDigits 10 n.natAbs with _ | ⟨c, r⟩
    · exact absurd hds hne
    · have hc := isDecimalDigit_ne c (hall c (by rw [hds]; simp))
      simp only
      rw [if_neg hc.2.1, if_neg hc.2.2, if_pos (by rw [← hds]; exact hall), ← hds, hval]
      congr 1
      omega

theorem strconv.ParseInt_decimal (n : Int) (hn : InInt64 n) :
    strconv.ParseInt (decimal n) = (n, none) :=
  (strconv.ParseInt_base10 (decimal n)).1 n (base10Value_decimal n) hn

/-! ## `ImportState` -/

theorem strings.Split_decimal (n : Int) (t : String) (ht : ',' ∉ t.data) :
    strings.Split (decimal n ++ "," ++ t) ',' = [decimal n, t] := by
  have hd : (decimal n ++ "," ++ t).data = (decimal n).data ++ ',' :: t.data := by
    simp [String.data_append]
  unfold strings.Split
  rw [hd, strings.genSplit_append _ _ _ (decimal_no_comma n),
    strings.genSplit_of_not_mem _ _ ht]
  rfl

theorem String.append_ne_of_getElem (a b x y : String) (i : Nat) (ha : i < a.data.length)
    (hb : i < b.data.length) (h : a.data[i]? ≠ b.data[i]?) : a ++ x ≠ b ++ y := by
  intro e
  have e2 := congrArg (fun s : String => s.data[i]?) e
  simp only [String.data_append] at e2
  rw [List.getElem?_append_left ha, List.getElem?_append_left hb] at e2
  exact h e2

/-- Claim C1. `ImportState` on a well-formed identifier: for every `int64` value
`n` and every verify token `t` without a comma, the identifier made of the
decimal text of `n`, a comma and `t` is imported without any diagnostic, with
state attribute `id` set to `n` and `verify_token` set to `t`. -/
theorem ImportState_wellformed (quote : String → String) (n : Int) (t : String)
    (hn : InInt64 n) (ht : ',' ∉ t.data) :
    (pushSubscriptionResource.ImportState quote ⟨decimal n ++ "," ++ t⟩).Diagnostics = [] ∧
    (pushSubscriptionResource.ImportState quote ⟨decimal n ++ "," ++ t⟩).State.GetAttribute "id"
      = some (.ofInt64 n) ∧
    (pushSubscriptionResource.ImportState quote ⟨decimal n ++ "," ++ t⟩).State.GetAttribute
      "verify_token" = some (.ofString t) := by
  have hres : pushSubscriptionResource.ImportState quote ⟨decimal n ++ "," ++ t⟩ =
      { Diagnostics := [],
        State := { Schema := pushSubscriptionResource.Schema,
                   Attrs := [("id", .ofInt64 n), ("verify_token", .ofString t)] } } := by
    unfold pushSubscriptionResource.ImportState
    simp only [strings.Split_decimal n t ht, List.length_cons, List.length_nil]
    simp only [List.getD_cons_zero, List.getD_cons_succ, strconv.ParseInt_decimal n hn]
    rfl
  rw [hres]
  exact ⟨rfl, rfl, rfl⟩

/-- Witness of C1: `"42,secretToken"` gives `id = 42`, `verify_token = "secretToken"`. -/
theorem ImportState_wellformed_witness :
    InInt64 42 ∧ ',' ∉ "secretToken".data ∧
    (pushSubscriptionResource.ImportState id ⟨"42,secretToken"⟩).Diagnostics = [] ∧
    (pushSubscriptionResource.ImportState id ⟨"42,secretToken"⟩).State.GetAttribute "id"
      = some (.ofInt64 42) ∧
    (pushSubscriptionResource.ImportState id ⟨"42,secretToken"⟩).State.GetAttribute
      "verify_token" = some (.ofString "secretToken") :=
  ⟨by decide, by decide, ImportState_wellformed id 42 "secretToken" (by decide) (by decide)⟩

theorem ImportState_cases (quote : String → String) (ID : String) :
    ((strings.Split ID ',').length < 2 ∧
      pushSubscriptionResource.ImportState quote ⟨ID⟩ =
        { Diagnostics := [⟨.Error, none, "Error importing item",
            "Could not import item, unexpected error (ID should be in the format <id>,<verify_token>): "
              ++ ID⟩],
          State := resource.ImportStateResponse.init.State }) ∨
    (¬ (strings.Split ID ',').length < 2 ∧ ¬ IsBase10Int64 ((strings.Split ID ',').getD 0 "") ∧
      ∃ e : strconv.NumError,
        (strconv.ParseInt ((strings.Split ID ',').getD 0 "")).2 = some e ∧
        pushSubscriptionResource.ImportState quote ⟨ID⟩ =
          { Diagnostics := [⟨.Error, none, "Error importing item",
              "Could not import item, unexpected error (The <id> part should be an integer): "
                ++ e.Error quote⟩],
            State := resource.ImportStateResponse.init.State }) ∨
    (¬ (strings.Split ID ',').length < 2 ∧ IsBase10Int64 ((strings.Split ID ',').getD 0 "") ∧
      pushSubscriptionResource.ImportState quote ⟨ID⟩ =
        { Diagnostics := [],
          State := { Schema := pushSubscriptionResource.Schema,
                     Attrs := [("id", .ofInt64 (strconv.ParseInt ((strings.Split ID ',').getD 0 "")).1),
                               ("verify_token", .ofString ((strings.Split ID ',').getD 1 ""))] } }) := by
  by_cases hlen : (strings.Split ID ',').length < 2
  · left
    refine ⟨hlen, ?_⟩
    unfold pushSubscriptionResource.ImportState
    simp only [hlen, if_true]
    rfl
  · right
    have hiff := strconv.ParseInt_err_eq_none_iff ((strings.Split ID ',').getD 0 "")
    rcases hP : strconv.ParseInt ((strings.Split ID ',').getD 0 "") with ⟨v, err⟩
    rw [hP] at hiff
    cases err with
    | some e =>
      left
      refine ⟨hlen, fun h => by simpa using hiff.mpr h, e, rfl, ?_⟩
      unfold pushSubscriptionResource.ImportState
      simp only [hlen, if_false, hP]
      rfl
    | none =>
      right
      refine ⟨hlen, hiff.mp rfl, ?_⟩
      unfold pushSubscriptionResource.ImportState
      simp only [hlen, if_false, hP]
      rfl

theorem importFormat_ne_importID (x y : String) :
    "Could not import item, unexpected error (ID should be in the format <id>,<verify_token>): " ++ x
      ≠ "Could not import item, unexpected error (The <id> part should be an integer): " ++ y :=
  String.append_ne_of_getElem _ _ x y 41 (by decide) (by decide) (by decide)

/-- Claim C2. `ImportState` rejects malformed identifiers. Splitting the
identifier on `","` gives fewer than two parts exactly when it has no comma;
the format error is reported exactly in that case; otherwise the id error is
reported exactly when the first part is not a base-10 integer that fits in
`int64`; and whenever an error is reported no state attribute is set. -/
theorem ImportState_malformed (quote : String → String) (ID : String) :
    ((strings.Split ID ',').length < 2 ↔ ',' ∉ ID.data) ∧
    ((⟨.Error, none, "Error importing item",
        "Could not import item, unexpected error (ID should be in the format <id>,<verify_token>): "
          ++ ID⟩ : Diagnostic) ∈ (pushSubscriptionResource.ImportState quote ⟨ID⟩).Diagnostics
      ↔ (strings.Split ID ',').length < 2) ∧
    ((∃ msg : String, (⟨.Error, none, "Error importing item",
        "Could not import item, unexpected error (The <id> part should be an integer): "
          ++ msg⟩ : Diagnostic) ∈ (pushSubscriptionResource.ImportState quote ⟨ID⟩).Diagnostics)
      ↔ (¬ (strings.Split ID ',').length < 2 ∧
          ¬ IsBase10Int64 ((strings.Split ID ',').getD 0 ""))) ∧
    ((pushSubscriptionResource.ImportState quote ⟨ID⟩).Diagnostics.HasError = true ↔
      ((strings.Split ID ',').length < 2 ∨ ¬ IsBase10Int64 ((strings.Split ID ',').getD 0 ""))) ∧
    ((pushSubscriptionResource.ImportState quote ⟨ID⟩).Diagnostics.HasError = true →
      (pushSubscriptionResource.ImportState quote ⟨ID⟩).State.Attrs = []) := by
  refine ⟨strings.Split_length_lt_two ID ',', ?_⟩
  rcases ImportState_cases quote ID with ⟨hlen, hres⟩ | ⟨hlen, hbad, e, _, hres⟩ | ⟨hlen, hok, hres⟩
  · rw [hres]
    refine ⟨?_, ?_, ?_, ?_⟩
    · simp [hlen]
    · simp only [List.mem_singleton, Diagnostic.mk.injEq, true_and]
      constructor
      · rintro ⟨msg, h⟩
        exact absurd h.symm (importFormat_ne_importID ID msg)
      · rintro ⟨h, _⟩; exact absurd hlen h
    · simp [hlen, Diagnostics.HasError]
    · intro _; rfl
  · rw [hres]
    refine ⟨?_, ?_, ?_, ?_⟩
    · simp only [List.mem_singleton, Diagnostic.mk.injEq, true_and]
      constructor
      · intro h
        exact absurd h (importFormat_ne_importID ID (e.Error quote))
      · intro h; exact absurd h hlen
    · simp only [List.mem_singleton, Diagnostic.mk.injEq, true_and]
      constructor
      · intro _; exact ⟨hlen, hbad⟩
      · intro _; exact ⟨e.Error quote, rfl⟩
    · exact ⟨fun _ => Or.inr hbad, fun _ => rfl⟩
    · intro _; rfl
  · rw [hres]
    refine ⟨?_, ?_, ?_, ?_⟩
    · simp [hlen]
    · constructor
      · rintro ⟨_, h⟩; cases h
      · rintro ⟨_, h⟩; exact absurd hok h
    · constructor
      · intro h; cases h
      · rintro (h | h)
        · exact absurd h hlen
        · exact absurd hok h
    · intro h; cases h

/-- Witness of C2: `"42"` is a format error and `"abc,token"` is an id error. -/
theorem ImportState_malformed_witness :
    ((⟨.Error, none, "Error importing item",
        "Could not import item, unexpected error (ID should be in the format <id>,<verify_token>): 42"⟩
        : Diagnostic) ∈ (pushSubscriptionResource.ImportState id ⟨"42"⟩).Diagnostics) ∧
    (∃ msg : String, (⟨.Error, none, "Error importing item",
        "Could not import item, unexpected error (The <id> part should be an integer): "
          ++ msg⟩ : Diagnostic) ∈
        (pushSubscriptionResource.ImportState id ⟨"abc,token"⟩).Diagnostics) ∧
    (pushSubscriptionResource.ImportState id ⟨"abc,token"⟩).State.Attrs = [] :=
  ⟨(ImportState_malformed id "42").2.1.mpr (by decide),
   (ImportState_malformed id "abc,token").2.2.1.mpr ⟨by decide, by decide⟩,
   (ImportState_malformed id "abc,token").2.2.2.2 (by decide)⟩

/-! ## Lemmas on diagnostics -/

theorem diag.Diagnostics.Append_nil (a : Diagnostics) : Diagnostics.Append a [] = a := rfl

theorem diag.Diagnostics.Append_singleton (a : Diagnostics) (d : Diagnostic) (h : d ∉ a) :
    Diagnostics.Append a [d] = a ++ [d] := by
  simp [Diagnostics.Append, h]

theorem diag.Diagnostics.mem_Append (b : List Diagnostic) : ∀ (a : Diagnostics) (d : Diagnostic),
    d ∈ Diagnostics.Append a b ↔ d ∈ a ∨ d ∈ b := by
  induction b with
  | nil => intro a d; simp [Diagnostics.Append]
  | cons x xs ih =>
    intro a d
    have hstep : Diagnostics.Append a (x :: xs) =
        Diagnostics.Append (if x ∈ a then a else a ++ [x]) xs := rfl
    rw [hstep, ih]
    by_cases hx : x ∈ a
    · rw [if_pos hx]
      constructor
      · rintro (h | h)
        · exact Or.inl h
        · exact Or.inr (List.mem_cons_of_mem _ h)
      · rintro (h | h)
        · exact Or.inl h
        · rcases List.mem_cons.mp h with h | h
          · subst h; exact Or.inl hx
          · exact Or.inr h
    · rw [if_neg hx]
      simp only [List.mem_append, List.mem_singleton, List.mem_cons]
      tauto

theorem diag.Diagnostics.HasError_eq_false_iff (ds : Diagnostics) :
    ds.HasError = false ↔ ∀ d ∈ ds, d.Severity ≠ .Error := by
  simp [Diagnostics.HasError]

theorem diag.Diagnostics.HasError_Append_nil (b : List Diagnostic) :
    (Diagnostics.Append [] b).HasError = Diagnostics.HasError b := by
  cases h : Diagnostics.HasError b with
  | false =>
    rw [Diagnostics.HasError_eq_false_iff] at h ⊢
    intro d hd
    rcases (Diagnostics.mem_Append b [] d).mp hd with hd | hd
    · cases hd
    · exact h d hd
  | true =>
    simp only [Diagnostics.HasError, List.any_eq_true, decide_eq_true_eq] at h ⊢
    obtain ⟨d, hd, he⟩ := h
    exact ⟨d, (Diagnostics.mem_Append b [] d).mpr (Or.inr hd), he⟩

theorem diag.Diagnostics.not_mem_of_HasError_false (ds : Diagnostics) (h : ds.HasError = false)
    (d : Diagnostic) (hd : d.Severity = .Error) : d ∉ ds :=
  fun hm => (Diagnostics.HasError_eq_false_iff ds).mp h d hm hd

theorem diag.Diagnostics.AddError_eq (ds : Diagnostics) (h : ds.HasError = false)
    (summary detail : String) :
    ds.AddError summary detail = ds ++ [⟨.Error, none, summary, detail⟩] :=
  Diagnostics.Append_singleton ds _ (Diagnostics.not_mem_of_HasError_false ds h _ rfl)

theorem diag.Diagnostics.AddAttributeError_eq (ds : Diagnostics) (h : ds.HasError = false)
    (path summary detail : String) :
    ds.AddAttributeError path summary detail = ds ++ [⟨.Error, some path, summary, detail⟩] :=
  Diagnostics.Append_singleton ds _ (Diagnostics.not_mem_of_HasError_false ds h _ rfl)

theorem diag.Diagnostics.HasError_append_error (ds : Diagnostics) (d : Diagnostic)
    (hd : d.Severity = .Error) : Diagnostics.HasError (ds ++ [d]) = true := by
  simp [Diagnostics.HasError, hd]

theorem diag.Diagnostics.ErrorsCount_append_error (ds : Diagnostics) (h : ds.HasError = false)
    (d : Diagnostic) (hd : d.Severity = .Error) : Diagnostics.ErrorsCount (ds ++ [d]) = 1 := by
  have h0 : ds.countP (fun d => d.Severity = .Error) = 0 := by
    rw [List.countP_eq_zero]
    intro x hx
    simpa using (Diagnostics.HasError_eq_false_iff ds).mp h x hx
  simp [Diagnostics.ErrorsCount, List.countP_append, h0, hd]

/-! ## `Configure` -/

/-- `Configure` as two validation passes followed by the construction of the client. -/
theorem stravaProvider.Configure_eq {C : Type} (Getenv : String → String)
    (NewClient : String → String → Except String C) (req : provider.ConfigureRequest) :
    stravaProvider.Configure Getenv NewClient req =
      if (Diagnostics.Append [] req.Get.1).HasError = true then
        { Diagnostics := Diagnostics.Append [] req.Get.1, DataSourceData := none,
          ResourceData := none, NewClient := [] }
      else if (stravaProvider.checkBoth (Diagnostics.Append [] req.Get.1)
          (req.Get.2.ClientId.IsUnknown = true) (req.Get.2.ClientSecret.IsUnknown = true)
          stravaProvider.unknownClientId stravaProvider.unknownClientSecret).HasError = true then
        { Diagnostics := stravaProvider.checkBoth (Diagnostics.Append [] req.Get.1)
            (req.Get.2.ClientId.IsUnknown = true) (req.Get.2.ClientSecret.IsUnknown = true)
            stravaProvider.unknownClientId stravaProvider.unknownClientSecret,
          DataSourceData := none, ResourceData := none, NewClient := [] }
      else if (stravaProvider.checkBoth
          (stravaProvider.checkBoth (Diagnostics.Append [] req.Get.1)
            (req.Get.2.ClientId.IsUnknown = true) (req.Get.2.ClientSecret.IsUnknown = true)
            stravaProvider.unknownClientId stravaProvider.unknownClientSecret)
          ((if (!req.Get.2.ClientId.IsNull) = true then req.Get.2.ClientId.ValueString
            else Getenv "STRAVA_CLIENT_ID") = "")
          ((if (!req.Get.2.ClientSecret.IsNull) = true then req.Get.2.ClientSecret.ValueString
            else Getenv "STRAVA_CLIENT_SECRET") = "")
          stravaProvider.missingClientId stravaProvider.missingClientSecret).HasError = true then
        { Diagnostics := stravaProvider.checkBoth
            (stravaProvider.checkBoth (Diagnostics.Append [] req.Get.1)
              (req.Get.2.ClientId.IsUnknown = true) (req.Get.2.ClientSecret.IsUnknown = true)
              stravaProvider.unknownClientId stravaProvider.unknownClientSecret)
            ((if (!req.Get.2.ClientId.IsNull) = true then req.Get.2.ClientId.ValueString
              else Getenv "STRAVA_CLIENT_ID") = "")
            ((if (!req.Get.2.ClientSecret.IsNull) = true then req.Get.2.ClientSecret.ValueString
              else Getenv "STRAVA_CLIENT_SECRET") = "")
            stravaProvider.missingClientId stravaProvider.missingClientSecret,
          DataSourceData := none, ResourceData := none, NewClient := [] }
      else
        match NewClient
          (if (!req.Get.2.ClientId.IsNull) = true then req.Get.2.ClientId.ValueString
            else Getenv "STRAVA_CLIENT_ID")
          (if (!req.Get.2.ClientSecret.IsNull) = true then req.Get.2.ClientSecret.ValueString
            else Getenv "STRAVA_CLIENT_SECRET") with
        | .error err =>
          { Diagnostics := Diagnostics.AddError (stravaProvider.checkBoth
              (stravaProvider.checkBoth (Diagnostics.Append [] req.Get.1)
                (req.Get.2.ClientId.IsUnknown = true) (req.Get.2.ClientSecret.IsUnknown = true)
                stravaProvider.unknownClientId stravaProvider.unknownClientSecret)
              ((if (!req.Get.2.ClientId.IsNull) = true then req.Get.2.ClientId.ValueString
                else Getenv "STRAVA_CLIENT_ID") = "")
              ((if (!req.Get.2.ClientSecret.IsNull) = true then req.Get.2.ClientSecret.ValueString
                else Getenv "STRAVA_CLIENT_SECRET") = "")
              stravaProvider.missingClientId stravaProvider.missingClientSecret)
              "Unable to Create Strava API Client"
              ("An unexpected error occurred when creating the Strava API client. "
                ++ "If the error is not clear, please contact the provider developers.\n\n"
                ++ "Strava Client Error: " ++ err),
            DataSourceData := none, ResourceData := none,
            NewClient := [(if (!req.Get.2.ClientId.IsNull) = true then req.Get.2.ClientId.ValueString
                else Getenv "STRAVA_CLIENT_ID",
              if (!req.Get.2.ClientSecret.IsNull) = true then req.Get.2.ClientSecret.ValueString
                else Getenv "STRAVA_CLIENT_SECRET")] }
        | .ok client =>
          { Diagnostics := stravaProvider.checkBoth
              (stravaProvider.checkBoth (Diagnostics.Append [] req.Get.1)
                (req.Get.2.ClientId.IsUnknown = true) (req.Get.2.ClientSecret.IsUnknown = true)
                stravaProvider.unknownClientId stravaProvider.unknownClientSecret)
              ((if (!req.Get.2.ClientId.IsNull) = true then req.Get.2.ClientId.ValueString
                else Getenv "STRAVA_CLIENT_ID") = "")
              ((if (!req.Get.2.ClientSecret.IsNull) = true then req.Get.2.ClientSecret.ValueString
                else Getenv "STRAVA_CLIENT_SECRET") = "")
              stravaProvider.missingClientId stravaProvider.missingClientSecret,
            DataSourceData := some client, ResourceData := some client,
            NewClient := [(if (!req.Get.2.ClientId.IsNull) = true then req.Get.2.ClientId.ValueString
                else Getenv "STRAVA_CLIENT_ID",
              if (!req.Get.2.ClientSecret.IsNull) = true then req.Get.2.ClientSecret.ValueString
                else Getenv "STRAVA_CLIENT_SECRET")] } := by
  rfl

theorem stravaProvider.checkBoth_of_not (ds : Diagnostics) (c1 c2 : Prop) [Decidable c1]
    [Decidable c2] (d1 d2 : Diagnostic) (h1 : ¬ c1) (h2 : ¬ c2) :
    stravaProvider.checkBoth ds c1 c2 d1 d2 = ds := by
  simp [stravaProvider.checkBoth, h1, h2]

theorem stravaProvider.checkBoth_eq (ds : Diagnostics) (h0 : ds.HasError = false)
    (c1 c2 : Prop) [Decidable c1] [Decidable c2] (d1 d2 : Diagnostic)
    (h1 : d1.Severity = .Error) (h2 : d2.Severity = .Error) (hne : d2 ≠ d1) :
    stravaProvider.checkBoth ds c1 c2 d1 d2 =
      ds ++ (if c1 then [d1] else []) ++ (if c2 then [d2] else []) := by
  have hn := Diagnostics.not_mem_of_HasError_false ds h0
  unfold stravaProvider.checkBoth
  by_cases hc1 : c1 <;> by_cases hc2 : c2
  · simp only [hc1, hc2, if_true]
    rw [Diagnostics.Append_singleton ds d1 (hn d1 h1), Diagnostics.Append_singleton]
    intro hm
    rcases List.mem_append.mp hm with hm | hm
    · exact hn d2 h2 hm
    · exact hne (List.mem_singleton.mp hm)
  · simp only [hc1, hc2, if_true, if_false, List.append_nil]
    rw [Diagnostics.Append_singleton ds d1 (hn d1 h1)]
  · simp only [hc1, hc2, if_true, if_false, List.append_nil]
    rw [Diagnostics.Append_singleton ds d2 (hn d2 h2)]
  · simp only [hc1, hc2, if_false, List.append_nil]

theorem stravaProvider.checkBoth_HasError (ds : Diagnostics) (h0 : ds.HasError = false)
    (c1 c2 : Prop) [Decidable c1] [Decidable c2] (d1 d2 : Diagnostic)
    (h1 : d1.Severity = .Error) (h2 : d2.Severity = .Error) (hne : d2 ≠ d1) :
    (stravaProvider.checkBoth ds c1 c2 d1 d2).HasError = true ↔ (c1 ∨ c2) := by
  rw [stravaProvider.checkBoth_eq ds h0 c1 c2 d1 d2 h1 h2 hne]
  have hno := (Diagnostics.HasError_eq_false_iff ds).mp h0
  simp only [Diagnostics.HasError, List.any_eq_true, decide_eq_true_eq, List.mem_append]
  constructor
  · rintro ⟨d, (hd | hd) | hd, he⟩
    · exact absurd he (hno d hd)
    · by_cases hc1 : c1
      · exact Or.inl hc1
      · simp [hc1] at hd
    · by_cases hc2 : c2
      · exact Or.inr hc2
      · simp [hc2] at hd
  · rintro (hc | hc)
    · exact ⟨d1, Or.inl (Or.inr (by simp [hc])), h1⟩
    · exact ⟨d2, Or.inr (by simp [hc]), h2⟩

theorem stravaProvider.unknown_ne :
    stravaProvider.unknownClientSecret ≠ stravaProvider.unknownClientId := by decide

theorem stravaProvider.missing_ne :
    stravaProvider.missingClientSecret ≠ stravaProvider.missingClientId := by decide

theorem resolvedCredential_eq (v : basetypes.StringValue) (env : String)
    (h : v.IsUnknown = false) :
    (if (!v.IsNull) = true then v.ValueString else env) = resolvedCredential v env := by
  cases v with
  | Null => rfl
  | Unknown => cases h
  | Value s => rfl

/-- `Configure` when a credential field is unknown: the first pass reports the
unknown fields and the handler returns. -/
theorem stravaProvider.Configure_unknown {C : Type} (Getenv : String → String)
    (NewClient : String → String → Except String C) (req : provider.ConfigureRequest)
    (hget : Diagnostics.HasError req.Get.1 = false)
    (hu : req.Get.2.ClientId.IsUnknown = true ∨ req.Get.2.ClientSecret.IsUnknown = true) :
    stravaProvider.Configure Getenv NewClient req =
      { Diagnostics := Diagnostics.Append [] req.Get.1
          ++ (if req.Get.2.ClientId.IsUnknown = true then [stravaProvider.unknownClientId]
              else [])
          ++ (if req.Get.2.ClientSecret.IsUnknown = true then [stravaProvider.unknownClientSecret]
              else []),
        DataSourceData := none, ResourceData := none, NewClient := [] } := by
  have h0 : (Diagnostics.Append [] req.Get.1).HasError = false := by
    rw [Diagnostics.HasError_Append_nil]; exact hget
  have hE := (stravaProvider.checkBoth_HasError _ h0 (req.Get.2.ClientId.IsUnknown = true)
    (req.Get.2.ClientSecret.IsUnknown = true) _ _ rfl rfl stravaProvider.unknown_ne).mpr hu
  rw [stravaProvider.Configure_eq, if_neg (by rw [h0]; simp), if_pos hE,
    stravaProvider.checkBoth_eq _ h0 _ _ _ _ rfl rfl stravaProvider.unknown_ne]

/-- `Configure` when both credential fields are known and one of them is empty
after resolution: the second pass reports the empty fields and the handler
returns. -/
theorem stravaProvider.Configure_missing {C : Type} (Getenv : String → String)
    (NewClient : String → String → Except String C) (req : provider.ConfigureRequest)
    (hget : Diagnostics.HasError req.Get.1 = false)
    (hid : req.Get.2.ClientId.IsUnknown = false)
    (hsec : req.Get.2.ClientSecret.IsUnknown = false)
    (hm : resolvedCredential req.Get.2.ClientId (Getenv "STRAVA_CLIENT_ID") = "" ∨
      resolvedCredential req.Get.2.ClientSecret (Getenv "STRAVA_CLIENT_SECRET") = "") :
    stravaProvider.Configure Getenv NewClient req =
      { Diagnostics := Diagnostics.Append [] req.Get.1
          ++ (if resolvedCredential req.Get.2.ClientId (Getenv "STRAVA_CLIENT_ID") = ""
              then [stravaProvider.missingClientId] else [])
          ++ (if resolvedCredential req.Get.2.ClientSecret (Getenv "STRAVA_CLIENT_SECRET") = ""
              then [stravaProvider.missingClientSecret] else []),
        DataSourceData := none, ResourceData := none, NewClient := [] } := by
  have h0 : (Diagnostics.Append [] req.Get.1).HasError = false := by
    rw [Diagnostics.HasError_Append_nil]; exact hget
  have hU := stravaProvider.checkBoth_of_not (Diagnostics.Append [] req.Get.1)
    (req.Get.2.ClientId.IsUnknown = true) (req.Get.2.ClientSecret.IsUnknown = true)
    stravaProvider.unknownClientId stravaProvider.unknownClientSecret
    (by rw [hid]; simp) (by rw [hsec]; simp)
  have hE := (stravaProvider.checkBoth_HasError _ h0
    (resolvedCredential req.Get.2.ClientId (Getenv "STRAVA_CLIENT_ID") = "")
    (resolvedCredential req.Get.2.ClientSecret (Getenv "STRAVA_CLIENT_SECRET") = "") _ _
    rfl rfl stravaProvider.missing_ne).mpr hm
  rw [stravaProvider.Configure_eq, hU, resolvedCredential_eq _ _ hid,
    resolvedCredential_eq _ _ hsec, if_neg (by rw [h0]; simp), if_neg (by rw [h0]; simp),
    if_pos hE, stravaProvider.checkBoth_eq _ h0 _ _ _ _ rfl rfl stravaProvider.missing_ne]

/-- `Configure` when both credential fields are known and neither is empty
after resolution: the client is constructed with the resolved values. -/
theorem stravaProvider.Configure_resolved {C : Type} (Getenv : String → String)
    (NewClient : String → String → Except String C) (req : provider.ConfigureRequest)
    (hget : Diagnostics.HasError req.Get.1 = false)
    (hid : req.Get.2.ClientId.IsUnknown = false)
    (hsec : req.Get.2.ClientSecret.IsUnknown = false)
    (h1 : resolvedCredential req.Get.2.ClientId (Getenv "STRAVA_CLIENT_ID") ≠ "")
    (h2 : resolvedCredential req.Get.2.ClientSecret (Getenv "STRAVA_CLIENT_SECRET") ≠ "") :
    stravaProvider.Configure Getenv NewClient req =
      match NewClient (resolvedCredential req.Get.2.ClientId (Getenv "STRAVA_CLIENT_ID"))
        (resolvedCredential req.Get.2.ClientSecret (Getenv "STRAVA_CLIENT_SECRET")) with
      | .error err =>
        { Diagnostics := Diagnostics.Append [] req.Get.1 ++
            [⟨.Error, none, "Unable to Create Strava API Client",
              "An unexpected error occurred when creating the Strava API client. "
                ++ "If the error is not clear, please contact the provider developers.\n\n"
                ++ "Strava Client Error: " ++ err⟩],
          DataSourceData := none, ResourceData := none,
          NewClient := [(resolvedCredential req.Get.2.ClientId (Getenv "STRAVA_CLIENT_ID"),
            resolvedCredential req.Get.2.ClientSecret (Getenv "STRAVA_CLIENT_SECRET"))] }
      | .ok client =>
        { Diagnostics := Diagnostics.Append [] req.Get.1,
          DataSourceData := some client, ResourceData := some client,
          NewClient := [(resolvedCredential req.Get.2.ClientId (Getenv "STRAVA_CLIENT_ID"),
            resolvedCredential req.Get.2.ClientSecret (Getenv "STRAVA_CLIENT_SECRET"))] } := by
  have h0 : (Diagnostics.Append [] req.Get.1).HasError = false := by
    rw [Diagnostics.HasError_Append_nil]; exact hget
  have hU := stravaProvider.checkBoth_of_not (Diagnostics.Append [] req.Get.1)
    (req.Get.2.ClientId.IsUnknown = true) (req.Get.2.ClientSecret.IsUnknown = true)
    stravaProvider.unknownClientId stravaProvider.unknownClientSecret
    (by rw [hid]; simp) (by rw [hsec]; simp)
  have hM := stravaProvider.checkBoth_of_not (Diagnostics.Append [] req.Get.1)
    (resolvedCredential req.Get.2.ClientId (Getenv "STRAVA_CLIENT_ID") = "")
    (resolvedCredential req.Get.2.ClientSecret (Getenv "STRAVA_CLIENT_SECRET") = "")
    stravaProvider.missingClientId stravaProvider.missingClientSecret h1 h2
  rw [stravaProvider.Configure_eq, hU, resolvedCredential_eq _ _ hid,
    resolvedCredential_eq _ _ hsec, hM, if_neg (by rw [h0]; simp), if_neg (by rw [h0]; simp),
    if_neg (by rw [h0]; simp)]
  cases NewClient (resolvedCredential req.Get.2.ClientId (Getenv "STRAVA_CLIENT_ID"))
      (resolvedCredential req.Get.2.ClientSecret (Getenv "STRAVA_CLIENT_SECRET")) with
  | error err => simp only [Diagnostics.AddError_eq _ h0]
  | ok c => rfl

theorem diag.Diagnostics.mem_append_of_error (ds : Diagnostics) (h : ds.HasError = false)
    (l : List Diagnostic) (d : Diagnostic) (hd : d.Severity = .Error) :
    d ∈ ds ++ l ↔ d ∈ l := by
  rw [List.mem_append]
  exact ⟨fun h' => h'.resolve_left (Diagnostics.not_mem_of_HasError_false ds h d hd), Or.inr⟩

theorem diag.Diagnostics.ErrorsCount_append (ds : Diagnostics) (h : ds.HasError = false)
    (l : List Diagnostic) :
    Diagnostics.ErrorsCount (ds ++ l) = Diagnostics.ErrorsCount l := by
  have h0 : ds.countP (fun d => d.Severity = .Error) = 0 := by
    rw [List.countP_eq_zero]
    intro x hx
    simpa using (Diagnostics.HasError_eq_false_iff ds).mp h x hx
  simp [Diagnostics.ErrorsCount, List.countP_append, h0]

/-- Claim C3. Credential resolution in `Configure`, when both `client_id` and
`client_secret` are known. With each credential resolved to its explicit value
when there is one and to its environment variable otherwise: the "Missing"
entry of a field is reported exactly when its resolved value is empty; when
both are empty the two entries are distinct and both reported; no client is
constructed when an entry is reported; and otherwise `strava.NewClient` is
called once, with the resolved values, and its client is what is handed on. -/
theorem Configure_credential_resolution {C : Type} (Getenv : String → String)
    (NewClient : String → String → Except String C) (req : provider.ConfigureRequest)
    (hget : Diagnostics.HasError req.Get.1 = false)
    (hid : req.Get.2.ClientId.IsUnknown = false)
    (hsec : req.Get.2.ClientSecret.IsUnknown = false) :
    (stravaProvider.missingClientId ∈ (stravaProvider.Configure Getenv NewClient req).Diagnostics
      ↔ resolvedCredential req.Get.2.ClientId (Getenv "STRAVA_CLIENT_ID") = "") ∧
    (stravaProvider.missingClientSecret ∈
        (stravaProvider.Configure Getenv NewClient req).Diagnostics
      ↔ resolvedCredential req.Get.2.ClientSecret (Getenv "STRAVA_CLIENT_SECRET") = "") ∧
    (resolvedCredential req.Get.2.ClientId (Getenv "STRAVA_CLIENT_ID") = "" →
      resolvedCredential req.Get.2.ClientSecret (Getenv "STRAVA_CLIENT_SECRET") = "" →
      stravaProvider.missingClientId ≠ stravaProvider.missingClientSecret ∧
      (stravaProvider.Configure Getenv NewClient req).Diagnostics =
        Diagnostics.Append [] req.Get.1
          ++ [stravaProvider.missingClientId, stravaProvider.missingClientSecret] ∧
      (stravaProvider.Configure Getenv NewClient req).Diagnostics.ErrorsCount = 2) ∧
    ((resolvedCredential req.Get.2.ClientId (Getenv "STRAVA_CLIENT_ID") = "" ∨
        resolvedCredential req.Get.2.ClientSecret (Getenv "STRAVA_CLIENT_SECRET") = "") →
      (stravaProvider.Configure Getenv NewClient req).NewClient = [] ∧
      (stravaProvider.Configure Getenv NewClient req).DataSourceData = none ∧
      (stravaProvider.Configure Getenv NewClient req).ResourceData = none) ∧
    (resolvedCredential req.Get.2.ClientId (Getenv "STRAVA_CLIENT_ID") ≠ "" →
      resolvedCredential req.Get.2.ClientSecret (Getenv "STRAVA_CLIENT_SECRET") ≠ "" →
      (stravaProvider.Configure Getenv NewClient req).NewClient =
        [(resolvedCredential req.Get.2.ClientId (Getenv "STRAVA_CLIENT_ID"),
          resolvedCredential req.Get.2.ClientSecret (Getenv "STRAVA_CLIENT_SECRET"))] ∧
      (stravaProvider.Configure Getenv NewClient req).DataSourceData =
        (NewClient (resolvedCredential req.Get.2.ClientId (Getenv "STRAVA_CLIENT_ID"))
          (resolvedCredential req.Get.2.ClientSecret (Getenv "STRAVA_CLIENT_SECRET"))).toOption ∧
      (stravaProvider.Configure Getenv NewClient req).ResourceData =
        (NewClient (resolvedCredential req.Get.2.ClientId (Getenv "STRAVA_CLIENT_ID"))
          (resolvedCredential req.Get.2.ClientSecret (Getenv "STRAVA_CLIENT_SECRET"))).toOption) := by
  have h0 : (Diagnostics.Append [] req.Get.1).HasError = false := by
    rw [Diagnostics.HasError_Append_nil]; exact hget
  have hmiss := stravaProvider.Configure_missing Getenv NewClient req hget hid hsec
  have hres := stravaProvider.Configure_resolved Getenv NewClient req hget hid hsec
  have hne : stravaProvider.missingClientId ≠ stravaProvider.missingClientSecret := by decide
  generalize resolvedCredential req.Get.2.ClientId (Getenv "STRAVA_CLIENT_ID") = cid at *
  generalize resolvedCredential req.Get.2.ClientSecret (Getenv "STRAVA_CLIENT_SECRET") = csec at *
  by_cases h1 : cid = "" <;> by_cases h2 : csec = ""
  · rw [hmiss (Or.inl h1)]
    refine ⟨?_, ?_, ?_, ?_, ?_⟩
    · simp [h1]
    · simp [h2]
    · intro _ _
      refine ⟨hne, by simp [h1, h2], ?_⟩
      simp only [h1, h2, if_true, List.append_assoc]
      rw [Diagnostics.ErrorsCount_append _ h0]
      rfl
    · intro _; exact ⟨rfl, rfl, rfl⟩
    · intro h; exact absurd h1 h
  · rw [hmiss (Or.inl h1)]
    refine ⟨?_, ?_, ?_, ?_, ?_⟩
    · simp [h1]
    · simp only [List.append_assoc]
      rw [Diagnostics.mem_append_of_error _ h0 _ _ rfl]
      simp [h1, h2, hne.symm]
    · intro _ h; exact absurd h h2
    · intro _; exact ⟨rfl, rfl, rfl⟩
    · intro h; exact absurd h1 h
  · rw [hmiss (Or.inr h2)]
    refine ⟨?_, ?_, ?_, ?_, ?_⟩
    · simp only [List.append_assoc]
      rw [Diagnostics.mem_append_of_error _ h0 _ _ rfl]
      simp [h1, h2, hne]
    · simp [h2]
    · intro h; exact absurd h h1
    · intro _; exact ⟨rfl, rfl, rfl⟩
    · intro _ h; exact absurd h2 h
  · rw [hres h1 h2]
    have hn := Diagnostics.not_mem_of_HasError_false _ h0
    cases NewClient cid csec with
    | error err =>
      refine ⟨?_, ?_, ?_, ?_, ?_⟩
      · simp only [h1, iff_false]
        rw [Diagnostics.mem_append_of_error _ h0 _ _ rfl]
        simp [stravaProvider.missingClientId]
      · simp only [h2, iff_false]
        rw [Diagnostics.mem_append_of_error _ h0 _ _ rfl]
        simp [stravaProvider.missingClientSecret]
      · intro h; exact absurd h h1
      · rintro (h | h)
        · exact absurd h h1
        · exact absurd h h2
      · intro _ _; exact ⟨rfl, rfl, rfl⟩
    | ok c =>
      refine ⟨?_, ?_, ?_, ?_, ?_⟩
      · simp only [h1, iff_false]; exact hn _ rfl
      · simp only [h2, iff_false]; exact hn _ rfl
      · intro h; exact absurd h h1
      · rintro (h | h)
        · exact absurd h h1
        · exact absurd h h2
      · intro _ _; exact ⟨rfl, rfl, rfl⟩

/-- Witness of C3: with `STRAVA_CLIENT_ID` set to `5`, an explicit `client_id`
of `9` resolves to `9` and no explicit value resolves to `5`; with neither
set, the "Missing" entry for `client_id` is reported. -/
theorem Configure_credential_resolution_witness :
    (stravaProvider.Configure (fun k => if k = "STRAVA_CLIENT_ID" then "5" else "")
        (fun a b => (Except.ok (a, b) : Except String (String × String)))
        ⟨([], ⟨.Value "9", .Value "s"⟩)⟩).NewClient = [("9", "s")] ∧
    (stravaProvider.Configure (fun k => if k = "STRAVA_CLIENT_ID" then "5" else "")
        (fun a b => (Except.ok (a, b) : Except String (String × String)))
        ⟨([], ⟨.Null, .Value "s"⟩)⟩).NewClient = [("5", "s")] ∧
    stravaProvider.missingClientId ∈
      (stravaProvider.Configure (fun _ => "")
        (fun a b => (Except.ok (a, b) : Except String (String × String)))
        ⟨([], ⟨.Null, .Value "s"⟩)⟩).Diagnostics :=
  ⟨((Configure_credential_resolution (fun k => if k = "STRAVA_CLIENT_ID" then "5" else "")
      (fun a b => (Except.ok (a, b) : Except String (String × String)))
      ⟨([], ⟨.Value "9", .Value "s"⟩)⟩ rfl rfl rfl).2.2.2.2 (by decide) (by decide)).1,
   ((Configure_credential_resolution (fun k => if k = "STRAVA_CLIENT_ID" then "5" else "")
      (fun a b => (Except.ok (a, b) : Except String (String × String)))
      ⟨([], ⟨.Null, .Value "s"⟩)⟩ rfl rfl rfl).2.2.2.2 (by decide) (by decide)).1,
   (Configure_credential_resolution (fun _ => "")
      (fun a b => (Except.ok (a, b) : Except String (String × String)))
      ⟨([], ⟨.Null, .Value "s"⟩)⟩ rfl rfl rfl).1.mpr (by decide)⟩

/-- Counterexample to C4 as stated: with `client_id` unknown, `client_secret`
not set and no `STRAVA_CLIENT_SECRET`, the secret is empty after resolution,
yet the only entry reported is the one for `client_id`: no entry names
`client_secret`. -/
theorem Configure_collects_all_counterexample :
    resolvedCredential .Null ((fun _ : String => "") "STRAVA_CLIENT_SECRET") = "" ∧
    (stravaProvider.Configure (fun _ => "")
        (fun a b => (Except.ok (a, b) : Except String (String × String)))
        ⟨([], ⟨.Unknown, .Null⟩)⟩).Diagnostics = [stravaProvider.unknownClientId] ∧
    ¬ ∃ d ∈ (stravaProvider.Configure (fun _ => "")
        (fun a b => (Except.ok (a, b) : Except String (String × String)))
        ⟨([], ⟨.Unknown, .Null⟩)⟩).Diagnostics, d.Path = some "client_secret" := by
  refine ⟨rfl, rfl, ?_⟩
  rintro ⟨d, hd, hp⟩
  have hd2 : d ∈ [stravaProvider.unknownClientId] := hd
  rw [List.mem_singleton] at hd2
  subst hd2
  revert hp
  decide

/-- Claim C4, amended. `Configure` validates in two passes, each of which checks
both credential fields. The first pass reports an entry for every field that
is unknown, and the handler returns after it when it reported one. Otherwise
the second pass reports an entry for every field that is empty after
resolution. No client is constructed whenever a pass reports an entry. -/
theorem Configure_collects_per_pass {C : Type} (Getenv : String → String)
    (NewClient : String → String → Except String C) (req : provider.ConfigureRequest)
    (hget : Diagnostics.HasError req.Get.1 = false) :
    (stravaProvider.unknownClientId ∈ (stravaProvider.Configure Getenv NewClient req).Diagnostics
      ↔ req.Get.2.ClientId.IsUnknown = true) ∧
    (stravaProvider.unknownClientSecret ∈
        (stravaProvider.Configure Getenv NewClient req).Diagnostics
      ↔ req.Get.2.ClientSecret.IsUnknown = true) ∧
    (stravaProvider.missingClientId ∈ (stravaProvider.Configure Getenv NewClient req).Diagnostics
      ↔ (req.Get.2.ClientId.IsUnknown = false ∧ req.Get.2.ClientSecret.IsUnknown = false ∧
          resolvedCredential req.Get.2.ClientId (Getenv "STRAVA_CLIENT_ID") = "")) ∧
    (stravaProvider.missingClientSecret ∈
        (stravaProvider.Configure Getenv NewClient req).Diagnostics
      ↔ (req.Get.2.ClientId.IsUnknown = false ∧ req.Get.2.ClientSecret.IsUnknown = false ∧
          resolvedCredential req.Get.2.ClientSecret (Getenv "STRAVA_CLIENT_SECRET") = "")) ∧
    ((req.Get.2.ClientId.IsUnknown = true ∨ req.Get.2.ClientSecret.IsUnknown = true ∨
        resolvedCredential req.Get.2.ClientId (Getenv "STRAVA_CLIENT_ID") = "" ∨
        resolvedCredential req.Get.2.ClientSecret (Getenv "STRAVA_CLIENT_SECRET") = "") →
      (stravaProvider.Configure Getenv NewClient req).NewClient = [] ∧
      (stravaProvider.Configure Getenv NewClient req).DataSourceData = none ∧
      (stravaProvider.Configure Getenv NewClient req).ResourceData = none) := by
  have h0 : (Diagnostics.Append [] req.Get.1).HasError = false := by
    rw [Diagnostics.HasError_Append_nil]; exact hget
  have hn := Diagnostics.not_mem_of_HasError_false _ h0
  have e1 : stravaProvider.unknownClientId ≠ stravaProvider.unknownClientSecret := by decide
  have e2 : stravaProvider.unknownClientId ≠ stravaProvider.missingClientId := by decide
  have e3 : stravaProvider.unknownClientId ≠ stravaProvider.missingClientSecret := by decide
  have e4 : stravaProvider.unknownClientSecret ≠ stravaProvider.missingClientId := by decide
  have e5 : stravaProvider.unknownClientSecret ≠ stravaProvider.missingClientSecret := by decide
  have e6 : stravaProvider.missingClientId ≠ stravaProvider.missingClientSecret := by decide
  by_cases hu : req.Get.2.ClientId.IsUnknown = true ∨ req.Get.2.ClientSecret.IsUnknown = true
  · rw [stravaProvider.Configure_unknown Getenv NewClient req hget hu]
    simp only [List.append_assoc]
    rw [Diagnostics.mem_append_of_error _ h0 _ _ rfl, Diagnostics.mem_append_of_error _ h0 _ _ rfl,
      Diagnostics.mem_append_of_error _ h0 _ _ rfl, Diagnostics.mem_append_of_error _ h0 _ _ rfl]
    rcases hid : req.Get.2.ClientId.IsUnknown with _ | _ <;>
      rcases hsec : req.Get.2.ClientSecret.IsUnknown with _ | _ <;>
      simp [hid, hsec] at hu <;>
      simp [e1, e2, e3, e4, e5, e6, e1.symm, e2.symm, e3.symm, e4.symm, e5.symm, e6.symm]
  · have hid : req.Get.2.ClientId.IsUnknown = false := by
      cases h : req.Get.2.ClientId.IsUnknown
      · rfl
      · exact absurd (Or.inl h) hu
    have hsec : req.Get.2.ClientSecret.IsUnknown = false := by
      cases h : req.Get.2.ClientSecret.IsUnknown
      · rfl
      · exact absurd (Or.inr h) hu
    have hmiss := stravaProvider.Configure_missing Getenv NewClient req hget hid hsec
    have hres := stravaProvider.Configure_resolved Getenv NewClient req hget hid hsec
    rw [hid, hsec]
    generalize resolvedCredential req.Get.2.ClientId (Getenv "STRAVA_CLIENT_ID") = cid at *
    generalize resolvedCredential req.Get.2.ClientSecret (Getenv "STRAVA_CLIENT_SECRET") = csec at *
    by_cases hm : cid = "" ∨ csec = ""
    · rw [hmiss hm]
      simp only [List.append_assoc]
      rw [Diagnostics.mem_append_of_error _ h0 _ _ rfl,
        Diagnostics.mem_append_of_error _ h0 _ _ rfl,
        Diagnostics.mem_append_of_error _ h0 _ _ rfl,
        Diagnostics.mem_append_of_error _ h0 _ _ rfl]
      by_cases h1 : cid = "" <;> by_cases h2 : csec = "" <;>
        simp [h1, h2, e1, e2, e3, e4, e5, e6, e1.symm, e2.symm, e3.symm, e4.symm, e5.symm,
          e6.symm]
    · have h1 : cid ≠ "" := fun h => hm (Or.inl h)
      have h2 : csec ≠ "" := fun h => hm (Or.inr h)
      rw [hres h1 h2]
      cases NewClient cid csec with
      | error err =>
        simp only [Bool.false_eq_true, false_or, iff_false, true_and, h1, h2, false_implies,
          and_true, and_false]
        rw [Diagnostics.mem_append_of_error _ h0 _ _ rfl,
          Diagnostics.mem_append_of_error _ h0 _ _ rfl,
          Diagnostics.mem_append_of_error _ h0 _ _ rfl,
          Diagnostics.mem_append_of_error _ h0 _ _ rfl]
        simp [stravaProvider.unknownClientId, stravaProvider.unknownClientSecret,
          stravaProvider.missingClientId, stravaProvider.missingClientSecret]
      | ok c =>
        simp only [Bool.false_eq_true, false_or, iff_false, true_and, h1, h2, false_implies,
          and_true, and_false]
        exact ⟨hn _ rfl, hn _ rfl, hn _ rfl, hn _ rfl⟩

/-- Witness of the amended C4: `client_id` unknown, `client_secret` not set and
no environment: the entry for the unknown `client_id` is reported and no
client is constructed. -/
theorem Configure_collects_per_pass_witness :
    stravaProvider.unknownClientId ∈
      (stravaProvider.Configure (fun _ => "")
        (fun a b => (Except.ok (a, b) : Except String (String × String)))
        ⟨([], ⟨.Unknown, .Null⟩)⟩).Diagnostics ∧
    (stravaProvider.Configure (fun _ => "")
        (fun a b => (Except.ok (a, b) : Except String (String × String)))
        ⟨([], ⟨.Unknown, .Null⟩)⟩).NewClient = [] :=
  ⟨(Configure_collects_per_pass (fun _ => "")
      (fun a b => (Except.ok (a, b) : Except String (String × String)))
      ⟨([], ⟨.Unknown, .Null⟩)⟩ rfl).1.mpr rfl,
   ((Configure_collects_per_pass (fun _ => "")
      (fun a b => (Except.ok (a, b) : Except String (String × String)))
      ⟨([], ⟨.Unknown, .Null⟩)⟩ rfl).2.2.2.2 (Or.inl rfl)).1⟩

/-! ## The RFC 3339 text of a clock reading -/

theorem digitsFold_replicate_zero (k : Nat) : digitsFold (List.replicate k '0') 0 = 0 := by
  induction k with
  | zero => rfl
  | succ k ih =>
    simp only [digitsFold, List.replicate_succ, List.foldl_cons] at ih ⊢
    exact ih

theorem time.appendInt_data (x w : Nat) (hw : 0 < w) (hx : x < 10 ^ w) :
    (time.appendInt x w).data.length = w ∧
    (∀ c ∈ (time.appendInt x w).data, isDecimalDigit c) ∧
    digitsValue (time.appendInt x w).data = x := by
  obtain ⟨_, hall, hval⟩ := toDigits_decimal x
  have hlen : (Nat.toDigits 10 x).length ≤ w :=
    Nat.toDigitsCore_length 10 (by decide) (x + 1) x w hx hw
  simp only [time.appendInt]
  refine ⟨?_, ?_, ?_⟩
  · simp only [List.length_append, List.length_replicate]
    omega
  · intro c hc
    rcases List.mem_append.mp hc with hc | hc
    · rw [(List.mem_replicate.mp hc).2]
      decide
    · exact hall c hc
  · rw [← digitsFold_zero, digitsFold, List.foldl_append]
    have h0 := digitsFold_replicate_zero (w - (Nat.toDigits 10 x).length)
    rw [digitsFold] at h0
    rw [h0]
    have h1 := digitsFold_zero (Nat.toDigits 10 x)
    rw [digitsFold] at h1
    rw [h1, hval]

theorem time.appendInt_two (x : Nat) (hx : x < 100) :
    ∃ a b : Char, (time.appendInt x 2).data = [a, b] ∧ isDecimalDigit a ∧ isDecimalDigit b ∧
      digitsValue [a, b] = x := by
  obtain ⟨hlen, hall, hval⟩ := time.appendInt_data x 2 (by decide) (by omega)
  obtain ⟨a, b, hab⟩ := List.length_eq_two.mp hlen
  rw [hab] at hall hval
  exact ⟨a, b, hab, hall a (by simp), hall b (by simp), hval⟩

theorem time.appendInt_four (x : Nat) (hx : x < 10000) :
    ∃ a b c d : Char, (time.appendInt x 4).data = [a, b, c, d] ∧ isDecimalDigit a ∧
      isDecimalDigit b ∧ isDecimalDigit c ∧ isDecimalDigit d ∧ digitsValue [a, b, c, d] = x := by
  obtain ⟨hlen, hall, hval⟩ := time.appendInt_data x 4 (by decide) (by omega)
  rcases h : (time.appendInt x 4).data with _ | ⟨a, _ | ⟨b, _ | ⟨c, _ | ⟨d, _ | ⟨e, l⟩⟩⟩⟩⟩ <;>
    rw [h] at hlen <;> simp at hlen
  rw [h] at hall hval
  exact ⟨a, b, c, d, rfl, hall a (by simp), hall b (by simp), hall c (by simp),
    hall d (by simp), hval⟩

theorem rfc3339.offset_zone (off : Int) (h1 : off % 60 = 0) (h2 : -86400 < off)
    (h3 : off < 86400) :
    rfc3339.offset
      ((if off = 0 then "Z"
        else (if Int.tdiv off 60 < 0 then "-" else "+")
          ++ time.appendInt ((Int.tdiv off 60).natAbs / 60) 2 ++ ":"
          ++ time.appendInt ((Int.tdiv off 60).natAbs % 60) 2 : String).data) = some off := by
  by_cases h0 : off = 0
  · rw [if_pos h0, h0]
    rfl
  · rw [if_neg h0]
    have hz : Int.tdiv off 60 = off / 60 := Int.tdiv_eq_ediv_of_dvd (Int.dvd_of_emod_eq_zero h1)
    rw [hz]
    obtain ⟨a, b, hab, ha, hb, hvab⟩ := time.appendInt_two ((off / 60).natAbs / 60) (by omega)
    obtain ⟨c, d, hcd, hc, hd, hvcd⟩ := time.appendInt_two ((off / 60).natAbs % 60) (by omega)
    by_cases hneg : off / 60 < 0
    · rw [if_pos hneg]
      have hdata : ("-" ++ time.appendInt ((off / 60).natAbs / 60) 2 ++ ":"
          ++ time.appendInt ((off / 60).natAbs % 60) 2 : String).data
          = ['-', a, b, ':', c, d] := by
        simp only [String.data_append, hab, hcd]
        rfl
      rw [hdata]
      have hall1 : ∀ x ∈ [a, b], isDecimalDigit x := by
        intro x hx; simp only [List.mem_cons, List.mem_singleton, List.not_mem_nil, or_false] at hx
        rcases hx with rfl | rfl <;> assumption
      have hall2 : ∀ x ∈ [c, d], isDecimalDigit x := by
        intro x hx; simp only [List.mem_cons, List.mem_singleton, List.not_mem_nil, or_false] at hx
        rcases hx with rfl | rfl <;> assumption
      have hd1 : rfc3339.digits ['-', a, b, ':', c, d] 1 2 = some ((off / 60).natAbs / 60) := by
        simp only [rfc3339.digits, List.drop_succ_cons, List.drop_zero, List.take_succ_cons,
          List.take_zero, List.length_cons, List.length_nil, true_and]
        rw [if_pos hall1, hvab]
      have hd2 : rfc3339.digits ['-', a, b, ':', c, d] 4 2 = some ((off / 60).natAbs % 60) := by
        simp only [rfc3339.digits, List.drop_succ_cons, List.drop_zero, List.take_succ_cons,
          List.take_zero, List.take_nil, List.length_cons, List.length_nil, true_and]
        rw [if_pos hall2, hvcd]
      unfold rfc3339.offset
      rw [if_neg (by simp), hd1, hd2]
      simp only
      have e1 : ['-', a, b, ':', c, d][0]? = some '-' := rfl
      have e2 : ¬ (['-', a, b, ':', c, d][0]? = some '+') := by rw [e1]; decide
      rw [if_pos ⟨rfl, rfl, by omega, by omega⟩, if_neg e2, if_pos e1]
      congr 1
      omega
    · rw [if_neg hneg]
      have hdata : ("+" ++ time.appendInt ((off / 60).natAbs / 60) 2 ++ ":"
          ++ time.appendInt ((off / 60).natAbs % 60) 2 : String).data
          = ['+', a, b, ':', c, d] := by
        simp only [String.data_append, hab, hcd]
        rfl
      rw [hdata]
      have hall1 : ∀ x ∈ [a, b], isDecimalDigit x := by
        intro x hx; simp only [List.mem_cons, List.mem_singleton, List.not_mem_nil, or_false] at hx
        rcases hx with rfl | rfl <;> assumption
      have hall2 : ∀ x ∈ [c, d], isDecimalDigit x := by
        intro x hx; simp only [List.mem_cons, List.mem_singleton, List.not_mem_nil, or_false] at hx
        rcases hx with rfl | rfl <;> assumption
      have hd1 : rfc3339.digits ['+', a, b, ':', c, d] 1 2 = some ((off / 60).natAbs / 60) := by
        simp only [rfc3339.digits, List.drop_succ_cons, List.drop_zero, List.take_succ_cons,
          List.take_zero, List.length_cons, List.length_nil, true_and]
        rw [if_pos hall1, hvab]
      have hd2 : rfc3339.digits ['+', a, b, ':', c, d] 4 2 = some ((off / 60).natAbs % 60) := by
        simp only [rfc3339.digits, List.drop_succ_cons, List.drop_zero, List.take_succ_cons,
          List.take_zero, List.take_nil, List.length_cons, List.length_nil, true_and]
        rw [if_pos hall2, hvcd]
      unfold rfc3339.offset
      rw [if_neg (by simp), hd1, hd2]
      simp only
      have e1 : ['+', a, b, ':', c, d][0]? = some '+' := rfl
      rw [if_pos ⟨rfl, rfl, by omega, by omega⟩, if_pos e1]
      congr 1
      omega

theorem rfc3339.digits_of_eq (cs f : List Char) (i w x : Nat)
    (hf : (cs.drop i).take w = f) (hlen : f.length = w) (hall : ∀ c ∈ f, isDecimalDigit c)
    (hval : digitsValue f = x) : rfc3339.digits cs i w = some x := by
  unfold rfc3339.digits
  rw [hf, if_pos ⟨hlen, hall⟩, hval]

/-- The text `Format` gives for a reading the clock can give is an RFC 3339
date-time, and the reading it denotes is that very reading. -/
theorem time.Time.parse_Format (t : time.Time) (h : t.Valid) :
    rfc3339.parse t.Format = some t := by
  obtain ⟨hY, hM1, hM2, hD1, hD2, hh, hm, hs, ho1, ho2, ho3⟩ := h
  obtain ⟨y1, y2, y3, y4, eY, dy1, dy2, dy3, dy4, vY⟩ := time.appendInt_four t.Year (by omega)
  obtain ⟨m1, m2, eM, dm1, dm2, vM⟩ := time.appendInt_two t.Month (by omega)
  have hD3 : t.Day < 100 := by
    have : rfc3339.daysIn t.Year t.Month ≤ 31 := by
      unfold rfc3339.daysIn; split <;> (try split) <;> omega
    omega
  obtain ⟨d1, d2, eD, dd1, dd2, vD⟩ := time.appendInt_two t.Day hD3
  obtain ⟨h1, h2, eH, dh1, dh2, vH⟩ := time.appendInt_two t.Hour (by omega)
  obtain ⟨n1, n2, eN, dn1, dn2, vN⟩ := time.appendInt_two t.Minute (by omega)
  obtain ⟨s1, s2, eS, ds1, ds2, vS⟩ := time.appendInt_two t.Second (by omega)
  have hz := rfc3339.offset_zone t.Offset ho1 ho2 ho3
  generalize htz : ((if t.Offset = 0 then "Z"
        else (if Int.tdiv t.Offset 60 < 0 then "-" else "+")
          ++ time.appendInt ((Int.tdiv t.Offset 60).natAbs / 60) 2 ++ ":"
          ++ time.appendInt ((Int.tdiv t.Offset 60).natAbs % 60) 2 : String)) = tz at hz
  have hdata : t.Format.data =
      y1 :: y2 :: y3 :: y4 :: '-' :: m1 :: m2 :: '-' :: d1 :: d2 :: 'T' :: h1 :: h2 :: ':' ::
        n1 :: n2 :: ':' :: s1 :: s2 :: tz.data := by
    simp only [time.Time.Format, String.data_append, htz, eY, eM, eD, eH, eN, eS]
    rfl
  have two : ∀ a b : Char, isDecimalDigit a → isDecimalDigit b →
      ∀ c ∈ [a, b], isDecimalDigit c := by
    intro a b ha hb c hc
    simp only [List.mem_cons, List.mem_singleton, List.not_mem_nil, or_false] at hc
    rcases hc with rfl | rfl <;> assumption
  have four : ∀ c ∈ [y1, y2, y3, y4], isDecimalDigit c := by
    intro c hc
    simp only [List.mem_cons, List.mem_singleton, List.not_mem_nil, or_false] at hc
    rcases hc with rfl | rfl | rfl | rfl <;> assumption
  have g1 : rfc3339.digits (y1 :: y2 :: y3 :: y4 :: '-' :: m1 :: m2 :: '-' :: d1 :: d2 :: 'T' :: h1 :: h2 :: ':' ::
      n1 :: n2 :: ':' :: s1 :: s2 :: tz.data) 0 4 = some t.Year :=
    rfc3339.digits_of_eq _ [y1, y2, y3, y4] 0 4 t.Year rfl rfl four vY
  have g2 : rfc3339.digits (y1 :: y2 :: y3 :: y4 :: '-' :: m1 :: m2 :: '-' :: d1 :: d2 :: 'T' :: h1 :: h2 :: ':' ::
      n1 :: n2 :: ':' :: s1 :: s2 :: tz.data) 5 2 = some t.Month :=
    rfc3339.digits_of_eq _ [m1, m2] 5 2 t.Month rfl rfl (two _ _ dm1 dm2) vM
  have g3 : rfc3339.digits (y1 :: y2 :: y3 :: y4 :: '-' :: m1 :: m2 :: '-' :: d1 :: d2 :: 'T' :: h1 :: h2 :: ':' ::
      n1 :: n2 :: ':' :: s1 :: s2 :: tz.data) 8 2 = some t.Day :=
    rfc3339.digits_of_eq _ [d1, d2] 8 2 t.Day rfl rfl (two _ _ dd1 dd2) vD
  have g4 : rfc3339.digits (y1 :: y2 :: y3 :: y4 :: '-' :: m1 :: m2 :: '-' :: d1 :: d2 :: 'T' :: h1 :: h2 :: ':' ::
      n1 :: n2 :: ':' :: s1 :: s2 :: tz.data) 11 2 = some t.Hour :=
    rfc3339.digits_of_eq _ [h1, h2] 11 2 t.Hour rfl rfl (two _ _ dh1 dh2) vH
  have g5 : rfc3339.digits (y1 :: y2 :: y3 :: y4 :: '-' :: m1 :: m2 :: '-' :: d1 :: d2 :: 'T' :: h1 :: h2 :: ':' ::
      n1 :: n2 :: ':' :: s1 :: s2 :: tz.data) 14 2 = some t.Minute :=
    rfc3339.digits_of_eq _ [n1, n2] 14 2 t.Minute rfl rfl (two _ _ dn1 dn2) vN
  have g6 : rfc3339.digits (y1 :: y2 :: y3 :: y4 :: '-' :: m1 :: m2 :: '-' :: d1 :: d2 :: 'T' :: h1 :: h2 :: ':' ::
      n1 :: n2 :: ':' :: s1 :: s2 :: tz.data) 17 2 = some t.Second :=
    rfc3339.digits_of_eq _ [s1, s2] 17 2 t.Second rfl rfl (two _ _ ds1 ds2) vS
  have hdrop : List.drop 19 (y1 :: y2 :: y3 :: y4 :: '-' :: m1 :: m2 :: '-' :: d1 :: d2 :: 'T' :: h1 :: h2 :: ':' ::
      n1 :: n2 :: ':' :: s1 :: s2 :: tz.data) = tz.data := rfl
  unfold rfc3339.parse
  rw [hdata, g1, g2, g3, g4, g5, g6, hdrop, hz]
  simp only
  rw [if_pos ⟨rfl, rfl, rfl, rfl, rfl, hM1, hM2, hD1, hD2, hh, hm, by omega⟩]

/-! ## `Create` -/

theorem int_of_InInt64 (x : Int) (h : InInt64 x) : int x = x := by
  unfold InInt64 at h
  unfold int
  omega

theorem int64_of_InInt64 (x : Int) (h : InInt64 x) : int64 x = x := by
  unfold InInt64 at h
  unfold int64
  omega

/-- Claim C5. `Create` on success. `Create` calls `CreateSubscription` with the
plan's callback URL and verify token, then `GetSubscription` with the id the
create call returned; when both succeed it makes no other call and sets a
state whose remote-owned fields are those of the re-fetched record, whose
`verify_token` is the plan's and whose `last_updated` is the clock reading in
RFC 3339 form: a text that reads back, as an RFC 3339 date-time, to the
reading of the clock. -/
theorem Create_success {W : Type} (r : pushSubscriptionResource W) (now : time.Time)
    (req : resource.CreateRequest) (rem : strava.Remote W)
    (created fetched : strava.SubscriptionItem) (w1 w2 : W)
    (hget : Diagnostics.HasError req.Plan.Get.1 = false)
    (hc : r.client.CreateSubscription
        { ID := 0, ResourceState := 0, ApplicationID := 0,
          CallbackURL := req.Plan.Get.2.CallbackURL.ValueString,
          VerifyToken := req.Plan.Get.2.VerifyToken.ValueString,
          CreatedAt := "", UpdatedAt := "" } rem.world = (.ok created, w1))
    (hid : InInt64 created.ID)
    (hg : r.client.GetSubscription created.ID w1 = (.ok fetched, w2))
    (hf : fetched.InRange)
    (hnow : now.Valid) :
    (r.Create now req rem).2.calls = rem.calls ++
      [.CreateSubscription
          { ID := 0, ResourceState := 0, ApplicationID := 0,
            CallbackURL := req.Plan.Get.2.CallbackURL.ValueString,
            VerifyToken := req.Plan.Get.2.VerifyToken.ValueString,
            CreatedAt := "", UpdatedAt := "" },
        .GetSubscription created.ID] ∧
    (r.Create now req rem).2.world = w2 ∧
    (r.Create now req rem).1.Diagnostics.HasError = false ∧
    (r.Create now req rem).1.State = some
      { ID := .Value fetched.ID,
        LastUpdated := .Value now.Format,
        ResourceState := .Value fetched.ResourceState,
        ApplicationID := .Value fetched.ApplicationID,
        CallbackURL := .Value fetched.CallbackURL,
        VerifyToken := req.Plan.Get.2.VerifyToken,
        CreatedAt := .Value fetched.CreatedAt,
        UpdatedAt := .Value fetched.UpdatedAt } ∧
    (∃ text : String,
      (r.Create now req rem).1.State.map (fun s => s.LastUpdated) = some (.Value text) ∧
      rfc3339.parse text = some now) := by
  have h0 : (Diagnostics.Append [] req.Plan.Get.1).HasError = false := by
    rw [Diagnostics.HasError_Append_nil]; exact hget
  obtain ⟨hf1, hf2, hf3⟩ := hf
  have hres : r.Create now req rem =
      ({ Diagnostics := Diagnostics.Append [] req.Plan.Get.1,
         State := some
          { ID := .Value fetched.ID,
            LastUpdated := .Value now.Format,
            ResourceState := .Value fetched.ResourceState,
            ApplicationID := .Value fetched.ApplicationID,
            CallbackURL := .Value fetched.CallbackURL,
            VerifyToken := req.Plan.Get.2.VerifyToken,
            CreatedAt := .Value fetched.CreatedAt,
            UpdatedAt := .Value fetched.UpdatedAt } },
       { world := w2, calls := rem.calls ++
          [.CreateSubscription
              { ID := 0, ResourceState := 0, ApplicationID := 0,
                CallbackURL := req.Plan.Get.2.CallbackURL.ValueString,
                VerifyToken := req.Plan.Get.2.VerifyToken.ValueString,
                CreatedAt := "", UpdatedAt := "" },
           .GetSubscription created.ID] }) := by
    unfold pushSubscriptionResource.Create
    simp only [resource.Response.init, h0, Bool.false_eq_true, if_false,
      strava.Client.callCreate, strava.Client.callGet, hc, int_of_InInt64 _ hid, hg,
      resource.Response.Set, Diagnostics.Append_nil, int64_of_InInt64 _ hf1,
      int64_of_InInt64 _ hf2, int64_of_InInt64 _ hf3, types.Int64Value, types.StringValue,
      List.append_assoc, List.cons_append, List.nil_append]
  rw [hres]
  exact ⟨rfl, rfl, h0, rfl, now.Format, rfl, time.Time.parse_Format now hnow⟩

/-- Witness of C5: against the in-memory service, creating the example plan
sets the state from the re-fetched record (the create response carries the id
only) and stamps the clock reading, 4 November 2026, 10:11:12 UTC, as
`2026-11-04T10:11:12Z`. -/
theorem Create_success_witness :
    exampleNow.Valid ∧
    ((⟨strava.memoryClient⟩ : pushSubscriptionResource _).Create exampleNow
        ⟨⟨([], examplePlan)⟩⟩ ⟨[], []⟩).1.State = some
      { ID := .Value 1,
        LastUpdated := .Value "2026-11-04T10:11:12Z",
        ResourceState := .Value 2,
        ApplicationID := .Value 5,
        CallbackURL := .Value "https://example.com/hook",
        VerifyToken := .Value "t0k3n",
        CreatedAt := .Value "2026-01-01T00:00:00Z",
        UpdatedAt := .Value "2026-01-01T00:00:00Z" } :=
  ⟨by decide,
   (Create_success ⟨strava.memoryClient⟩ exampleNow ⟨⟨([], examplePlan)⟩⟩ ⟨[], []⟩
    { ID := 1, ResourceState := 0, ApplicationID := 0, CallbackURL := "", VerifyToken := "",
      CreatedAt := "", UpdatedAt := "" }
    exampleRecord
    [exampleRecord] [exampleRecord] rfl rfl (by decide) rfl (by decide) (by decide)).2.2.2.1⟩

/-- Claim C6. `Create` leaves no partial state on failure. If `CreateSubscription`
fails, `Create` reports exactly one error, sets no state and makes no further
call, so `GetSubscription` is not called; if `CreateSubscription` succeeds and
the `GetSubscription` that follows fails, `Create` reports exactly one error
and sets no state. -/
theorem Create_failure {W : Type} (r : pushSubscriptionResource W) (now : time.Time)
    (req : resource.CreateRequest) (rem : strava.Remote W)
    (hget : Diagnostics.HasError req.Plan.Get.1 = false) :
    (∀ (err : String) (w1 : W),
      r.client.CreateSubscription
          { ID := 0, ResourceState := 0, ApplicationID := 0,
            CallbackURL := req.Plan.Get.2.CallbackURL.ValueString,
            VerifyToken := req.Plan.Get.2.VerifyToken.ValueString,
            CreatedAt := "", UpdatedAt := "" } rem.world = (.error err, w1) →
      (r.Create now req rem).1.Diagnostics.ErrorsCount = 1 ∧
      (r.Create now req rem).1.Diagnostics = Diagnostics.Append [] req.Plan.Get.1 ++
        [⟨.Error, none, "Error creating subscription",
          "Could not create subscription, unexpected error: " ++ err⟩] ∧
      (r.Create now req rem).1.State = none ∧
      (r.Create now req rem).2.calls = rem.calls ++
        [.CreateSubscription
          { ID := 0, ResourceState := 0, ApplicationID := 0,
            CallbackURL := req.Plan.Get.2.CallbackURL.ValueString,
            VerifyToken := req.Plan.Get.2.VerifyToken.ValueString,
            CreatedAt := "", UpdatedAt := "" }]) ∧
    (∀ (created : strava.SubscriptionItem) (err : String) (w1 w2 : W),
      r.client.CreateSubscription
          { ID := 0, ResourceState := 0, ApplicationID := 0,
            CallbackURL := req.Plan.Get.2.CallbackURL.ValueString,
            VerifyToken := req.Plan.Get.2.VerifyToken.ValueString,
            CreatedAt := "", UpdatedAt := "" } rem.world = (.ok created, w1) →
      r.client.GetSubscription (int created.ID) w1 = (.error err, w2) →
      (r.Create now req rem).1.Diagnostics.ErrorsCount = 1 ∧
      (r.Create now req rem).1.Diagnostics = Diagnostics.Append [] req.Plan.Get.1 ++
        [⟨.Error, none, "Error reading created subscription",
          "Could not read created subscription, unexpected error: " ++ err⟩] ∧
      (r.Create now req rem).1.State = none) := by
  have h0 : (Diagnostics.Append [] req.Plan.Get.1).HasError = false := by
    rw [Diagnostics.HasError_Append_nil]; exact hget
  constructor
  · intro err w1 hc
    have hres : r.Create now req rem =
        ({ Diagnostics := Diagnostics.Append [] req.Plan.Get.1 ++
            [⟨.Error, none, "Error creating subscription",
              "Could not create subscription, unexpected error: " ++ err⟩],
           State := none },
         { world := w1, calls := rem.calls ++
            [.CreateSubscription
              { ID := 0, ResourceState := 0, ApplicationID := 0,
                CallbackURL := req.Plan.Get.2.CallbackURL.ValueString,
                VerifyToken := req.Plan.Get.2.VerifyToken.ValueString,
                CreatedAt := "", UpdatedAt := "" }] }) := by
      unfold pushSubscriptionResource.Create
      simp only [resource.Response.init, h0, Bool.false_eq_true, if_false,
        strava.Client.callCreate, hc, Diagnostics.AddError_eq _ h0]
    rw [hres]
    exact ⟨Diagnostics.ErrorsCount_append_error _ h0 _ rfl, rfl, rfl, rfl⟩
  · intro created err w1 w2 hc hg
    have hres : (r.Create now req rem).1 =
        { Diagnostics := Diagnostics.Append [] req.Plan.Get.1 ++
            [⟨.Error, none, "Error reading created subscription",
              "Could not read created subscription, unexpected error: " ++ err⟩],
          State := none } := by
      unfold pushSubscriptionResource.Create
      simp only [resource.Response.init, h0, Bool.false_eq_true, if_false,
        strava.Client.callCreate, strava.Client.callGet, hc, hg, Diagnostics.AddError_eq _ h0]
    rw [hres]
    exact ⟨Diagnostics.ErrorsCount_append_error _ h0 _ rfl, rfl, rfl⟩

/-- Witness of C6: a client whose create call fails, and a client whose create
call succeeds and whose read fails. -/
theorem Create_failure_witness :
    ((⟨strava.fixedClient (.error "boom") (.ok exampleRecord) (.ok []) none⟩ :
        pushSubscriptionResource Unit).Create exampleNow ⟨⟨([], examplePlan)⟩⟩ ⟨(), []⟩).1.State
      = none ∧
    ((⟨strava.fixedClient (.ok exampleRecord) (.error "gone") (.ok []) none⟩ :
        pushSubscriptionResource Unit).Create exampleNow ⟨⟨([], examplePlan)⟩⟩ ⟨(), []⟩).1.State
      = none :=
  ⟨(((Create_failure ⟨strava.fixedClient (.error "boom") (.ok exampleRecord) (.ok []) none⟩
      exampleNow ⟨⟨([], examplePlan)⟩⟩ ⟨(), []⟩ rfl).1 "boom" () rfl).2.2.1),
   (((Create_failure ⟨strava.fixedClient (.ok exampleRecord) (.error "gone") (.ok []) none⟩
      exampleNow ⟨⟨([], examplePlan)⟩⟩ ⟨(), []⟩ rfl).2 exampleRecord "gone" () () rfl rfl).2.2)⟩

/-! ## `Read` -/

/-- Counterexample to C7 as stated: against a service that answers every
`GetSubscription` with the one subscription it holds (id 7), `Read` of a state
with id 1 succeeds and sets a state whose id is still 1, not the id of the
fetched record. -/
theorem Read_overlay_counterexample :
    strava.singleClient.GetSubscription (int (exampleState.ID.ValueInt64)) (some exampleRecord7)
      = (.ok exampleRecord7, some exampleRecord7) ∧
    (((⟨strava.singleClient⟩ : pushSubscriptionResource _).Read ⟨⟨([], exampleState)⟩⟩
        ⟨some exampleRecord7, []⟩).1.State.map (fun s => s.ID)) = some (.Value 1) ∧
    (basetypes.Int64Value.Value 1) ≠ .Value exampleRecord7.ID :=
  ⟨rfl, rfl, by decide⟩

/-- Claim C7, amended. `Read` overlays the remote-owned fields other than `id`
onto the cached state: after a successful fetch the state set has
`resource_state`, `application_id`, `callback_url`, `created_at` and
`updated_at` of the fetched record and keeps `id`, `verify_token` and
`last_updated` of the prior state as they are, a null or unknown `id`
included; so its `id` is the fetched record's whenever the prior `id` is a
known `int64` value and the record the client returned has the id it was
asked for; and if the fetch fails, `Read` reports one error and sets no
state. -/
theorem Read_overlay {W : Type} (r : pushSubscriptionResource W)
    (req : resource.ReadRequest) (rem : strava.Remote W)
    (hget : Diagnostics.HasError req.State.Get.1 = false) :
    (∀ (fetched : strava.SubscriptionItem) (w1 : W),
      r.client.GetSubscription (int req.State.Get.2.ID.ValueInt64) rem.world
        = (.ok fetched, w1) →
      fetched.InRange →
      (r.Read req rem).1.State = some
        { ID := req.State.Get.2.ID,
          LastUpdated := req.State.Get.2.LastUpdated,
          ResourceState := .Value fetched.ResourceState,
          ApplicationID := .Value fetched.ApplicationID,
          CallbackURL := .Value fetched.CallbackURL,
          VerifyToken := req.State.Get.2.VerifyToken,
          CreatedAt := .Value fetched.CreatedAt,
          UpdatedAt := .Value fetched.UpdatedAt } ∧
      (r.Read req rem).1.Diagnostics.HasError = false ∧
      (r.Read req rem).1.State.map (fun s => s.ID) = some req.State.Get.2.ID ∧
      (∀ n : Int, req.State.Get.2.ID = .Value n → InInt64 n →
        fetched.ID = int req.State.Get.2.ID.ValueInt64 →
        (r.Read req rem).1.State.map (fun s => s.ID) = some (.Value fetched.ID))) ∧
    (∀ (err : String) (w1 : W),
      r.client.GetSubscription (int req.State.Get.2.ID.ValueInt64) rem.world
        = (.error err, w1) →
      (r.Read req rem).1.Diagnostics.HasError = true ∧
      (r.Read req rem).1.Diagnostics.ErrorsCount = 1 ∧
      (r.Read req rem).1.State = none) := by
  have h0 : (Diagnostics.Append [] req.State.Get.1).HasError = false := by
    rw [Diagnostics.HasError_Append_nil]; exact hget
  constructor
  · intro fetched w1 hg hf
    obtain ⟨_, hf2, hf3⟩ := hf
    have hres : (r.Read req rem).1 =
        { Diagnostics := Diagnostics.Append [] req.State.Get.1,
          State := some
            { ID := req.State.Get.2.ID,
              LastUpdated := req.State.Get.2.LastUpdated,
              ResourceState := .Value fetched.ResourceState,
              ApplicationID := .Value fetched.ApplicationID,
              CallbackURL := .Value fetched.CallbackURL,
              VerifyToken := req.State.Get.2.VerifyToken,
              CreatedAt := .Value fetched.CreatedAt,
              UpdatedAt := .Value fetched.UpdatedAt } } := by
      unfold pushSubscriptionResource.Read
      simp only [resource.Response.init, h0, Bool.false_eq_true, if_false,
        strava.Client.callGet, hg, resource.Response.Set, Diagnostics.Append_nil,
        int64_of_InInt64 _ hf2, int64_of_InInt64 _ hf3, types.Int64Value, types.StringValue]
    rw [hres]
    refine ⟨rfl, h0, rfl, ?_⟩
    intro n hid hn hasked
    rw [hid] at hasked
    have hfn : fetched.ID = n := by
      rw [hasked]
      exact int_of_InInt64 n hn
    simp only [Option.map_some', hid, hfn]
  · intro err w1 hg
    have hres : (r.Read req rem).1 =
        { Diagnostics := Diagnostics.Append [] req.State.Get.1 ++
            [⟨.Error, none, "Error Reading Strava Subscription",
              "Could not read Strava subscription ID "
                ++ string (rune req.State.Get.2.ID.ValueInt64) ++ ": " ++ err⟩],
          State := none } := by
      unfold pushSubscriptionResource.Read
      simp only [resource.Response.init, h0, Bool.false_eq_true, if_false,
        strava.Client.callGet, hg, Diagnostics.AddError_eq _ h0]
    rw [hres]
    exact ⟨Diagnostics.HasError_append_error _ _ rfl,
      Diagnostics.ErrorsCount_append_error _ h0 _ rfl, rfl⟩

/-- A null prior `id` stays null: `Read` asks the client for id 0 and, when a
record comes back, sets a state whose `id` is still null. -/
theorem Read_keeps_null_id :
    ((⟨strava.fixedClient (.ok exampleRecord) (.ok { exampleRecord with ID := 0 }) (.ok []) none⟩ :
        pushSubscriptionResource Unit).Read
          ⟨⟨([], { exampleState with ID := .Null })⟩⟩ ⟨(), []⟩).2.calls
      = [.GetSubscription 0] ∧
    (((⟨strava.fixedClient (.ok exampleRecord) (.ok { exampleRecord with ID := 0 }) (.ok []) none⟩ :
        pushSubscriptionResource Unit).Read
          ⟨⟨([], { exampleState with ID := .Null })⟩⟩ ⟨(), []⟩).1.State.map (fun s => s.ID))
      = some .Null :=
  ⟨rfl, rfl⟩

/-- Witness of the amended C7: against the in-memory service holding the
example record, `Read` of the example state sets a state with the record's
fields and the prior `id`, `verify_token` and `last_updated`. -/
theorem Read_overlay_witness :
    ((⟨strava.memoryClient⟩ : pushSubscriptionResource _).Read ⟨⟨([], exampleState)⟩⟩
        ⟨[{ exampleRecord with UpdatedAt := "2026-02-02T00:00:00Z" }], []⟩).1.State
      = some { exampleState with UpdatedAt := .Value "2026-02-02T00:00:00Z" } :=
  ((Read_overlay ⟨strava.memoryClient⟩ ⟨⟨([], exampleState)⟩⟩
      ⟨[{ exampleRecord with UpdatedAt := "2026-02-02T00:00:00Z" }], []⟩ rfl).1
    { exampleRecord with UpdatedAt := "2026-02-02T00:00:00Z" }
    [{ exampleRecord with UpdatedAt := "2026-02-02T00:00:00Z" }] rfl (by decide)).1

/-! ## `Update` -/

/-- Claim C8. `Update` is an unconditional delete-then-create with phase-tagged
failures. Its first call is `DeleteSubscription` with the plan's id. If that
fails it reports the delete-phase error, makes no other call and sets no
state. If it succeeds the next call is `CreateSubscription` with the plan's
callback URL and verify token; a failure there, or in the `GetSubscription`
that follows, is reported with a create-phase error whose summary differs from
the delete-phase one, with no state set and no further call. -/
theorem Update_phases {W : Type} (r : pushSubscriptionResource W) (now : time.Time)
    (req : resource.UpdateRequest) (rem : strava.Remote W)
    (hget : Diagnostics.HasError req.Plan.Get.1 = false)
    (hid : InInt64 req.Plan.Get.2.ID.ValueInt64) :
    (∃ rest, (r.Update now req rem).2.calls =
      rem.calls ++ .DeleteSubscription req.Plan.Get.2.ID.ValueInt64 :: rest) ∧
    (∀ (err : String) (w1 : W),
      r.client.DeleteSubscription req.Plan.Get.2.ID.ValueInt64 rem.world = (some err, w1) →
      (r.Update now req rem).1.Diagnostics = Diagnostics.Append [] req.Plan.Get.1 ++
        [⟨.Error, none, "Error Deleting Strava Subscription",
          "Could not delete subscription, unexpected error: " ++ err⟩] ∧
      (r.Update now req rem).1.State = none ∧
      (r.Update now req rem).2.calls =
        rem.calls ++ [.DeleteSubscription req.Plan.Get.2.ID.ValueInt64]) ∧
    (∀ (err : String) (w1 w2 : W),
      r.client.DeleteSubscription req.Plan.Get.2.ID.ValueInt64 rem.world = (none, w1) →
      r.client.CreateSubscription
          { ID := 0, ResourceState := 0, ApplicationID := 0,
            CallbackURL := req.Plan.Get.2.CallbackURL.ValueString,
            VerifyToken := req.Plan.Get.2.VerifyToken.ValueString,
            CreatedAt := "", UpdatedAt := "" } w1 = (.error err, w2) →
      (r.Update now req rem).1.Diagnostics = Diagnostics.Append [] req.Plan.Get.1 ++
        [⟨.Error, none, "Error creating subscription",
          "Could not create subscription, unexpected error: " ++ err⟩] ∧
      (r.Update now req rem).1.State = none ∧
      (r.Update now req rem).2.calls = rem.calls ++
        [.DeleteSubscription req.Plan.Get.2.ID.ValueInt64,
         .CreateSubscription
          { ID := 0, ResourceState := 0, ApplicationID := 0,
            CallbackURL := req.Plan.Get.2.CallbackURL.ValueString,
            VerifyToken := req.Plan.Get.2.VerifyToken.ValueString,
            CreatedAt := "", UpdatedAt := "" }]) ∧
    (∀ (created : strava.SubscriptionItem) (err : String) (w1 w2 w3 : W),
      r.client.DeleteSubscription req.Plan.Get.2.ID.ValueInt64 rem.world = (none, w1) →
      r.client.CreateSubscription
          { ID := 0, ResourceState := 0, ApplicationID := 0,
            CallbackURL := req.Plan.Get.2.CallbackURL.ValueString,
            VerifyToken := req.Plan.Get.2.VerifyToken.ValueString,
            CreatedAt := "", UpdatedAt := "" } w1 = (.ok created, w2) →
      r.client.GetSubscription (int created.ID) w2 = (.error err, w3) →
      (r.Update now req rem).1.Diagnostics = Diagnostics.Append [] req.Plan.Get.1 ++
        [⟨.Error, none, "Error reading created subscription",
          "Could not read created subscription, unexpected error: " ++ err⟩] ∧
      (r.Update now req rem).1.State = none ∧
      (r.Update now req rem).2.calls = rem.calls ++
        [.DeleteSubscription req.Plan.Get.2.ID.ValueInt64,
         .CreateSubscription
          { ID := 0, ResourceState := 0, ApplicationID := 0,
            CallbackURL := req.Plan.Get.2.CallbackURL.ValueString,
            VerifyToken := req.Plan.Get.2.VerifyToken.ValueString,
            CreatedAt := "", UpdatedAt := "" },
         .GetSubscription (int created.ID)]) ∧
    ("Error creating subscription" ≠ "Error Deleting Strava Subscription" ∧
      "Error reading created subscription" ≠ "Error Deleting Strava Subscription") := by
  have h0 : (Diagnostics.Append [] req.Plan.Get.1).HasError = false := by
    rw [Diagnostics.HasError_Append_nil]; exact hget
  have hint := int_of_InInt64 _ hid
  refine ⟨?_, ?_, ?_, ?_, by decide, by decide⟩
  · unfold pushSubscriptionResource.Update
    simp only [resource.Response.init, h0, Bool.false_eq_true, if_false,
      strava.Client.callDelete, strava.Client.callCreate, strava.Client.callGet, hint]
    rcases r.client.DeleteSubscription req.Plan.Get.2.ID.ValueInt64 rem.world with ⟨_ | e, w1⟩
    · simp only
      rcases r.client.CreateSubscription _ w1 with ⟨e | c, w2⟩
      · exact ⟨[.CreateSubscription
          { ID := 0, ResourceState := 0, ApplicationID := 0,
            CallbackURL := req.Plan.Get.2.CallbackURL.ValueString,
            VerifyToken := req.Plan.Get.2.VerifyToken.ValueString,
            CreatedAt := "", UpdatedAt := "" }], by simp⟩
      · simp only
        rcases r.client.GetSubscription (int c.ID) w2 with ⟨e | f, w3⟩
        · exact ⟨[.CreateSubscription
            { ID := 0, ResourceState := 0, ApplicationID := 0,
              CallbackURL := req.Plan.Get.2.CallbackURL.ValueString,
              VerifyToken := req.Plan.Get.2.VerifyToken.ValueString,
              CreatedAt := "", UpdatedAt := "" }, .GetSubscription (int c.ID)], by simp⟩
        · exact ⟨[.CreateSubscription
            { ID := 0, ResourceState := 0, ApplicationID := 0,
              CallbackURL := req.Plan.Get.2.CallbackURL.ValueString,
              VerifyToken := req.Plan.Get.2.VerifyToken.ValueString,
              CreatedAt := "", UpdatedAt := "" }, .GetSubscription (int c.ID)], by simp⟩
    · exact ⟨[], rfl⟩
  · intro err w1 hd
    unfold pushSubscriptionResource.Update
    simp only [resource.Response.init, h0, Bool.false_eq_true, if_false,
      strava.Client.callDelete, hint, hd, Diagnostics.AddError_eq _ h0, and_self]
  · intro err w1 w2 hd hc
    unfold pushSubscriptionResource.Update
    simp only [resource.Response.init, h0, Bool.false_eq_true, if_false,
      strava.Client.callDelete, strava.Client.callCreate, hint, hd, hc,
      Diagnostics.AddError_eq _ h0, List.append_assoc, List.cons_append, List.nil_append,
      and_self]
  · intro created err w1 w2 w3 hd hc hg
    unfold pushSubscriptionResource.Update
    simp only [resource.Response.init, h0, Bool.false_eq_true, if_false,
      strava.Client.callDelete, strava.Client.callCreate, strava.Client.callGet, hint, hd, hc,
      hg, Diagnostics.AddError_eq _ h0, List.append_assoc, List.cons_append, List.nil_append,
      and_self]

/-- Witness of C8: a client whose delete call fails, and a client whose delete
call succeeds and whose create call fails. -/
theorem Update_phases_witness :
    ((⟨strava.fixedClient (.ok exampleRecord) (.ok exampleRecord) (.ok []) (some "boom")⟩ :
        pushSubscriptionResource Unit).Update exampleNow ⟨⟨([], exampleState)⟩⟩
          ⟨(), []⟩).2.calls = [.DeleteSubscription 1] ∧
    ((⟨strava.fixedClient (.error "boom") (.ok exampleRecord) (.ok []) none⟩ :
        pushSubscriptionResource Unit).Update exampleNow ⟨⟨([], exampleState)⟩⟩
          ⟨(), []⟩).1.Diagnostics =
      [⟨.Error, none, "Error creating subscription",
        "Could not create subscription, unexpected error: boom"⟩] :=
  ⟨((Update_phases
      ⟨strava.fixedClient (.ok exampleRecord) (.ok exampleRecord) (.ok []) (some "boom")⟩
      exampleNow ⟨⟨([], exampleState)⟩⟩ ⟨(), []⟩ rfl (by decide)).2.1 "boom" () rfl).2.2,
   ((Update_phases
      ⟨strava.fixedClient (.error "boom") (.ok exampleRecord) (.ok []) none⟩
      exampleNow ⟨⟨([], exampleState)⟩⟩ ⟨(), []⟩ rfl (by decide)).2.2.1 "boom" () () rfl rfl).1⟩

/-- Counterexample to C9 as stated: against the in-memory service holding the
example record (id 1), `Update` of the state held for it, with an unchanged
spec, succeeds and produces a state whose id is again 1: the service numbered
the new record like the one just deleted. -/
theorem Update_replace_counterexample :
    exampleState.ID = .Value 1 ∧
    ((⟨strava.memoryClient⟩ : pushSubscriptionResource _).Update exampleNow
        ⟨⟨([], exampleState)⟩⟩ ⟨[exampleRecord], []⟩).1.Diagnostics = [] ∧
    (((⟨strava.memoryClient⟩ : pushSubscriptionResource _).Update exampleNow
        ⟨⟨([], exampleState)⟩⟩ ⟨[exampleRecord], []⟩).1.State.map (fun s => s.ID))
      = some (.Value 1) ∧
    ((⟨strava.memoryClient⟩ : pushSubscriptionResource _).Update exampleNow
        ⟨⟨([], exampleState)⟩⟩ ⟨[exampleRecord], []⟩).2.calls =
      [.DeleteSubscription 1,
       .CreateSubscription
          { ID := 0, ResourceState := 0, ApplicationID := 0,
            CallbackURL := "https://example.com/hook", VerifyToken := "t0k3n",
            CreatedAt := "", UpdatedAt := "" },
       .GetSubscription 1] :=
  ⟨rfl, rfl, rfl, rfl⟩

/-- Claim C9, amended. Replace semantics of `Update`. A successful `Update`
always deletes the record at the id it was called with and creates a new one,
whatever the spec, also an unchanged one; the state it produces has the id of
the record re-fetched after the create call, so its id differs from the id it
was called with exactly when the remote service gave the new record a
different id. -/
theorem Update_replace {W : Type} (r : pushSubscriptionResource W) (now : time.Time)
    (req : resource.UpdateRequest) (rem : strava.Remote W)
    (created fetched : strava.SubscriptionItem) (w1 w2 w3 : W)
    (hget : Diagnostics.HasError req.Plan.Get.1 = false)
    (hid : InInt64 req.Plan.Get.2.ID.ValueInt64)
    (hd : r.client.DeleteSubscription req.Plan.Get.2.ID.ValueInt64 rem.world = (none, w1))
    (hc : r.client.CreateSubscription
        { ID := 0, ResourceState := 0, ApplicationID := 0,
          CallbackURL := req.Plan.Get.2.CallbackURL.ValueString,
          VerifyToken := req.Plan.Get.2.VerifyToken.ValueString,
          CreatedAt := "", UpdatedAt := "" } w1 = (.ok created, w2))
    (hcid : InInt64 created.ID)
    (hg : r.client.GetSubscription created.ID w2 = (.ok fetched, w3))
    (hf : fetched.InRange) :
    (r.Update now req rem).2.calls = rem.calls ++
      [.DeleteSubscription req.Plan.Get.2.ID.ValueInt64,
       .CreateSubscription
          { ID := 0, ResourceState := 0, ApplicationID := 0,
            CallbackURL := req.Plan.Get.2.CallbackURL.ValueString,
            VerifyToken := req.Plan.Get.2.VerifyToken.ValueString,
            CreatedAt := "", UpdatedAt := "" },
       .GetSubscription created.ID] ∧
    (r.Update now req rem).1.Diagnostics.HasError = false ∧
    (r.Update now req rem).1.State = some
      { ID := .Value fetched.ID,
        LastUpdated := .Value now.Format,
        ResourceState := .Value fetched.ResourceState,
        ApplicationID := .Value fetched.ApplicationID,
        CallbackURL := .Value fetched.CallbackURL,
        VerifyToken := req.Plan.Get.2.VerifyToken,
        CreatedAt := .Value fetched.CreatedAt,
        UpdatedAt := .Value fetched.UpdatedAt } ∧
    ((r.Update now req rem).1.State.map (fun s => s.ID.ValueInt64)
        ≠ some req.Plan.Get.2.ID.ValueInt64
      ↔ fetched.ID ≠ req.Plan.Get.2.ID.ValueInt64) := by
  have h0 : (Diagnostics.Append [] req.Plan.Get.1).HasError = false := by
    rw [Diagnostics.HasError_Append_nil]; exact hget
  obtain ⟨hf1, hf2, hf3⟩ := hf
  have hres : r.Update now req rem =
      ({ Diagnostics := Diagnostics.Append [] req.Plan.Get.1,
         State := some
          { ID := .Value fetched.ID,
            LastUpdated := .Value now.Format,
            ResourceState := .Value fetched.ResourceState,
            ApplicationID := .Value fetched.ApplicationID,
            CallbackURL := .Value fetched.CallbackURL,
            VerifyToken := req.Plan.Get.2.VerifyToken,
            CreatedAt := .Value fetched.CreatedAt,
            UpdatedAt := .Value fetched.UpdatedAt } },
       { world := w3, calls := rem.calls ++
          [.DeleteSubscription req.Plan.Get.2.ID.ValueInt64,
           .CreateSubscription
              { ID := 0, ResourceState := 0, ApplicationID := 0,
                CallbackURL := req.Plan.Get.2.CallbackURL.ValueString,
                VerifyToken := req.Plan.Get.2.VerifyToken.ValueString,
                CreatedAt := "", UpdatedAt := "" },
           .GetSubscription created.ID] }) := by
    unfold pushSubscriptionResource.Update
    simp only [resource.Response.init, h0, Bool.false_eq_true, if_false,
      strava.Client.callDelete, strava.Client.callCreate, strava.Client.callGet,
      int_of_InInt64 _ hid, hd, hc, int_of_InInt64 _ hcid, hg, resource.Response.Set,
      Diagnostics.Append_nil, int64_of_InInt64 _ hf1, int64_of_InInt64 _ hf2,
      int64_of_InInt64 _ hf3, types.Int64Value, types.StringValue, List.append_assoc,
      List.cons_append, List.nil_append]
  rw [hres]
  refine ⟨rfl, h0, rfl, ?_⟩
  simp [basetypes.Int64Value.ValueInt64]

/-- Witness of the amended C9: against the in-memory service holding two
records, `Update` of the state held for the first one deletes it, creates a
new record and produces a state with the new record's id, 2. -/
theorem Update_replace_witness :
    (((⟨strava.memoryClient⟩ : pushSubscriptionResource _).Update exampleNow
        ⟨⟨([], exampleState)⟩⟩ ⟨[exampleRecord, exampleRecord7], []⟩).1.State.map
          (fun s => s.ID)) = some (.Value 2) :=
  congrArg (Option.map (fun s => s.ID))
    (Update_replace ⟨strava.memoryClient⟩ exampleNow ⟨⟨([], exampleState)⟩⟩
      ⟨[exampleRecord, exampleRecord7], []⟩
      { ID := 2, ResourceState := 0, ApplicationID := 0, CallbackURL := "", VerifyToken := "",
        CreatedAt := "", UpdatedAt := "" }
      { exampleRecord with ID := 2 }
      [exampleRecord7] [exampleRecord7, { exampleRecord with ID := 2 }]
      [exampleRecord7, { exampleRecord with ID := 2 }]
      rfl (by decide) rfl rfl (by decide) rfl (by decide)).2.2.1

/-! ## The data source's `Read` -/

/-- The loop of the data source's `Read` over at least one record leaves a
slice that is not nil and holds the projection of every record, in order,
after what the slice held. -/
theorem pushSubscriptionsDataSource.foldl_appendSubscription
    (recs : List strava.SubscriptionItem) (hr : ∀ s ∈ recs, s.InRange) :
    ∀ state : pushSubscriptionsDataSourceModel,
      recs.foldl pushSubscriptionsDataSource.appendSubscription state =
        { ID := state.ID,
          PushSubscriptions :=
            (if recs = [] then state.PushSubscriptions
             else some (state.PushSubscriptions.getD [] ++
              recs.map (fun s =>
                { ID := .Value s.ID, ResourceState := .Value s.ResourceState,
                  ApplicationID := .Value s.ApplicationID,
                  CallbackURL := .Value s.CallbackURL,
                  CreatedAt := .Value s.CreatedAt, UpdatedAt := .Value s.UpdatedAt }))) } := by
  induction recs with
  | nil => intro state; simp
  | cons s rest ih =>
    intro state
    obtain ⟨h1, h2, h3⟩ := hr s (List.mem_cons_self _ _)
    rw [List.foldl_cons, ih (fun x hx => hr x (List.mem_cons_of_mem _ hx))]
    by_cases hrest : rest = []
    · simp [hrest, pushSubscriptionsDataSource.appendSubscription, builtin.append,
        int64_of_InInt64 _ h1, int64_of_InInt64 _ h2, int64_of_InInt64 _ h3,
        types.Int64Value, types.StringValue]
    · simp [hrest, pushSubscriptionsDataSource.appendSubscription, builtin.append,
        int64_of_InInt64 _ h1, int64_of_InInt64 _ h2, int64_of_InInt64 _ h3,
        types.Int64Value, types.StringValue]

/-- Counterexample to C10 as stated: when `GetAllSubscriptions` returns the
empty list, the slice of the model stays nil and the state set has a null
`push_subscriptions`, not a list of length 0. -/
theorem DataSource_Read_projection_counterexample :
    strava.memoryClient.GetAllSubscriptions [] = (.ok [], []) ∧
    ((⟨strava.memoryClient⟩ : pushSubscriptionsDataSource _).Read ⟨[], []⟩).1.State
      = some { id := .Value "placeholder", push_subscriptions := .Null } ∧
    (basetypes.ListValue.Null : basetypes.ListValue pushSubscriptionsModel) ≠ .Value [] :=
  ⟨rfl, rfl, by decide⟩

/-- Claim C10, amended. Collection Reader projection. When
`GetAllSubscriptions` returns a list of records, the data source's `Read` sets
a state whose own id is `"placeholder"`. For a list of at least one record its
`push_subscriptions` is a list with the length and the order of the remote
list, the i-th element carrying the id, resource state, application id,
callback URL and the two timestamps of the i-th record; for the empty list
its `push_subscriptions` is null. When `GetAllSubscriptions` fails, `Read`
reports one error and sets no state. -/
theorem DataSource_Read_projection {W : Type} (d : pushSubscriptionsDataSource W)
    (rem : strava.Remote W) :
    (∀ (recs : List strava.SubscriptionItem) (w1 : W),
      d.client.GetAllSubscriptions rem.world = (.ok recs, w1) →
      (∀ s ∈ recs, s.InRange) →
      ∃ st : pushSubscriptionsDataSourceState,
        (d.Read rem).1.State = some st ∧
        (d.Read rem).1.Diagnostics = [] ∧
        st.id = .Value "placeholder" ∧
        (recs = [] → st.push_subscriptions = .Null) ∧
        (recs ≠ [] →
          ∃ elements : List pushSubscriptionsModel,
            st.push_subscriptions = .Value elements ∧
            elements = recs.map (fun s =>
              { ID := .Value s.ID, ResourceState := .Value s.ResourceState,
                ApplicationID := .Value s.ApplicationID, CallbackURL := .Value s.CallbackURL,
                CreatedAt := .Value s.CreatedAt, UpdatedAt := .Value s.UpdatedAt }) ∧
            elements.length = recs.length ∧
            ∀ (i : Nat) (h1 : i < elements.length) (h2 : i < recs.length),
              (elements.get ⟨i, h1⟩).ID = .Value (recs.get ⟨i, h2⟩).ID ∧
              (elements.get ⟨i, h1⟩).ResourceState = .Value (recs.get ⟨i, h2⟩).ResourceState ∧
              (elements.get ⟨i, h1⟩).ApplicationID = .Value (recs.get ⟨i, h2⟩).ApplicationID ∧
              (elements.get ⟨i, h1⟩).CallbackURL = .Value (recs.get ⟨i, h2⟩).CallbackURL ∧
              (elements.get ⟨i, h1⟩).CreatedAt = .Value (recs.get ⟨i, h2⟩).CreatedAt ∧
              (elements.get ⟨i, h1⟩).UpdatedAt = .Value (recs.get ⟨i, h2⟩).UpdatedAt)) ∧
    (∀ (err : String) (w1 : W),
      d.client.GetAllSubscriptions rem.world = (.error err, w1) →
      (d.Read rem).1.Diagnostics =
        [⟨.Error, none, "Unable to Read Strava Subscriptions", err⟩] ∧
      (d.Read rem).1.Diagnostics.ErrorsCount = 1 ∧
      (d.Read rem).1.State = none) := by
  constructor
  · intro recs w1 hg hr
    have hres : (d.Read rem).1 =
        { Diagnostics := [],
          State := some
            { id := .Value "placeholder",
              push_subscriptions :=
                (if recs = [] then .Null
                 else .Value (recs.map (fun s =>
                  { ID := .Value s.ID, ResourceState := .Value s.ResourceState,
                    ApplicationID := .Value s.ApplicationID,
                    CallbackURL := .Value s.CallbackURL,
                    CreatedAt := .Value s.CreatedAt, UpdatedAt := .Value s.UpdatedAt }))) } } := by
      unfold pushSubscriptionsDataSource.Read
      simp only [datasource.ReadResponse.init, strava.Client.callGetAll, hg,
        pushSubscriptionsDataSource.foldl_appendSubscription recs hr,
        datasource.ReadResponse.Set, Diagnostics.Append_nil, types.StringValue]
      by_cases hrecs : recs = [] <;> simp [hrecs]
    rw [hres]
    refine ⟨_, rfl, rfl, rfl, ?_, ?_⟩
    · intro hrecs
      simp [hrecs]
    · intro hrecs
      refine ⟨_, by simp only [if_neg hrecs], rfl, by simp, ?_⟩
      intro i h1 h2
      simp
  · intro err w1 hg
    have hres : (d.Read rem).1 =
        { Diagnostics := [⟨.Error, none, "Unable to Read Strava Subscriptions", err⟩],
          State := none } := by
      unfold pushSubscriptionsDataSource.Read
      simp only [datasource.ReadResponse.init, strava.Client.callGetAll, hg]
      rfl
    rw [hres]
    exact ⟨rfl, rfl, rfl⟩

/-- Witness of the amended C10: against the in-memory service holding two
records, the data source lists both, in order, under the id `"placeholder"`. -/
theorem DataSource_Read_projection_witness :
    ∃ st : pushSubscriptionsDataSourceState,
      ((⟨strava.memoryClient⟩ : pushSubscriptionsDataSource _).Read
        ⟨[exampleRecord, exampleRecord7], []⟩).1.State = some st ∧
      st.id = .Value "placeholder" ∧
      ∃ elements : List pushSubscriptionsModel,
        st.push_subscriptions = .Value elements ∧
        elements.map (fun s => s.ID) = [.Value 1, .Value 7] := by
  obtain ⟨st, h1, _, h3, _, h5⟩ :=
    (DataSource_Read_projection ⟨strava.memoryClient⟩
      ⟨[exampleRecord, exampleRecord7], []⟩).1 [exampleRecord, exampleRecord7]
      [exampleRecord, exampleRecord7] rfl (by decide)
  obtain ⟨elements, h6, h7, _⟩ := h5 (by decide)
  exact ⟨st, h1, h3, elements, h6, by rw [h7]; rfl⟩

/-! ## `ImportState` on identifiers with more than two parts -/

theorem strings.genSplit_exists_sep (sep : Char) (cs : List Char)
    (h : 2 ≤ (strings.genSplit sep cs).length) :
    ∃ a rest, cs = a ++ sep :: rest ∧ sep ∉ a := by
  induction cs with
  | nil => simp [strings.genSplit] at h
  | cons c cs ih =>
    by_cases hc : c = sep
    · exact ⟨[], cs, by simp [hc], by simp⟩
    · have hne : (c == sep) = false := by simpa using hc
      rw [strings.genSplit_length, List.count_cons, hne] at h
      obtain ⟨a, rest, he, ha⟩ := ih (by rw [strings.genSplit_length]; simpa using h)
      refine ⟨c :: a, rest, by rw [he]; rfl, ?_⟩
      intro hm
      rcases List.mem_cons.mp hm with hm | hm
      · exact hc hm.symm
      · exact ha hm

theorem base10Value_no_comma (s : String) (n : Int) (h : base10Value s = some n) :
    ',' ∉ s.data := by
  unfold base10Value at h
  rcases hd : s.data with _ | ⟨c, r⟩
  · simp
  · rw [hd] at h
    simp only at h
    intro hm
    by_cases hplus : c = '+'
    · rw [if_pos hplus] at h
      split at h
      · rename_i hall
        rcases List.mem_cons.mp hm with hm | hm
        · rw [hplus] at hm; revert hm; decide
        · exact (isDecimalDigit_ne _ (hall.2 _ hm)).1 rfl
      · cases h
    · rw [if_neg hplus] at h
      by_cases hminus : c = '-'
      · rw [if_pos hminus] at h
        split at h
        · rename_i hall
          rcases List.mem_cons.mp hm with hm | hm
          · rw [hminus] at hm; revert hm; decide
          · exact (isDecimalDigit_ne _ (hall.2 _ hm)).1 rfl
        · cases h
      · rw [if_neg hminus] at h
        split at h
        · rename_i hall
          exact (isDecimalDigit_ne _ (hall _ hm)).1 rfl
        · cases h

/-- Claim C11. `ImportState` keeps only the second comma-separated part as the
verify token. Every identifier with three or more comma-separated parts whose
first part is a base-10 integer `n` of the `int64` range has the form
`a,b,c` with no comma in `a` nor in `b`; `ImportState` reports no diagnostic
on it, sets `id` to `n` and sets `verify_token` to `b`, the text between the
first and the second comma: what follows the second comma is dropped, so the
token set is not `b,c`. -/
theorem ImportState_keeps_second_part (quote : String → String) (ID : String) (n : Int)
    (h3 : 3 ≤ (strings.Split ID ',').length)
    (hv : base10Value ((strings.Split ID ',').getD 0 "") = some n) (hn : InInt64 n) :
    ∃ a b c : String,
      ID = a ++ "," ++ b ++ "," ++ c ∧ ',' ∉ a.data ∧ ',' ∉ b.data ∧
      strings.Split ID ',' = a :: b :: strings.Split c ',' ∧
      (pushSubscriptionResource.ImportState quote ⟨ID⟩).Diagnostics = [] ∧
      (pushSubscriptionResource.ImportState quote ⟨ID⟩).State.GetAttribute "id"
        = some (.ofInt64 n) ∧
      (pushSubscriptionResource.ImportState quote ⟨ID⟩).State.GetAttribute "verify_token"
        = some (.ofString b) ∧
      b ≠ b ++ "," ++ c := by
  have hlen : (strings.genSplit ',' ID.data).length = (strings.Split ID ',').length := by
    simp [strings.Split]
  obtain ⟨a, r1, he1, ha⟩ := strings.genSplit_exists_sep ',' ID.data (by omega)
  have hs1 : strings.genSplit ',' ID.data = a :: strings.genSplit ',' r1 := by
    rw [he1, strings.genSplit_append _ _ _ ha]
  obtain ⟨b, c, he2, hb⟩ := strings.genSplit_exists_sep ',' r1 (by
    rw [hs1, List.length_cons] at hlen; omega)
  have hs2 : strings.genSplit ',' r1 = b :: strings.genSplit ',' c := by
    rw [he2, strings.genSplit_append _ _ _ hb]
  have hsplit : strings.Split ID ',' =
      String.mk a :: String.mk b :: strings.Split (String.mk c) ',' := by
    simp [strings.Split, hs1, hs2]
  have hID : ID = String.mk a ++ "," ++ String.mk b ++ "," ++ String.mk c := by
    apply String.ext
    simp [String.data_append, he1, he2]
  have hne : String.mk b ≠ String.mk b ++ "," ++ String.mk c := by
    intro e
    have h1 : b = b ++ (',' :: c) := by
      have h2 := congrArg String.data e
      simp only [String.data_append, List.append_assoc] at h2
      exact h2
    have h3 := congrArg List.length h1
    simp only [List.length_append, List.length_cons] at h3
    omega
  refine ⟨String.mk a, String.mk b, String.mk c, hID, ha, hb, hsplit, ?_⟩
  have hval : IsBase10Int64 ((strings.Split ID ',').getD 0 "") := by
    unfold IsBase10Int64; rw [hv]; exact hn
  have hP := (strconv.ParseInt_base10 ((strings.Split ID ',').getD 0 "")).1 n hv hn
  rcases ImportState_cases quote ID with ⟨hlt, _⟩ | ⟨_, hbad, _⟩ | ⟨_, _, hres⟩
  · omega
  · exact absurd hval hbad
  · rw [hres, hP, hsplit]
    exact ⟨rfl, rfl, rfl, hne⟩

/-- Witness of C11: `"42,secret,Token"` has the three parts `42`, `secret`,
`Token`; its import sets `verify_token` to `secret`. -/
theorem ImportState_keeps_second_part_witness :
    (pushSubscriptionResource.ImportState id ⟨"42,secret,Token"⟩).State.GetAttribute
        "verify_token" = some (.ofString "secret") ∧
    ∃ a b c : String,
      "42,secret,Token" = a ++ "," ++ b ++ "," ++ c ∧ ',' ∉ a.data ∧ ',' ∉ b.data ∧
      strings.Split "42,secret,Token" ',' = a :: b :: strings.Split c ',' ∧
      (pushSubscriptionResource.ImportState id ⟨"42,secret,Token"⟩).Diagnostics = [] ∧
      (pushSubscriptionResource.ImportState id ⟨"42,secret,Token"⟩).State.GetAttribute "id"
        = some (.ofInt64 42) ∧
      (pushSubscriptionResource.ImportState id ⟨"42,secret,Token"⟩).State.GetAttribute
        "verify_token" = some (.ofString b) ∧
      b ≠ b ++ "," ++ c :=
  ⟨by decide,
   ImportState_keeps_second_part id "42,secret,Token" 42 (by decide) (by decide) (by decide)⟩

/-! ## The failure message of `Read` -/

/-- The detail `Read` reports when the fetch fails: the fixed text, then
`string(rune(id))`, then `": "` and the text of the client's error. -/
theorem Read_failure_detail {W : Type} (r : pushSubscriptionResource W)
    (req : resource.ReadRequest) (rem : strava.Remote W) (err : String) (w1 : W)
    (hget : Diagnostics.HasError req.State.Get.1 = false)
    (hg : r.client.GetSubscription (int req.State.Get.2.ID.ValueInt64) rem.world
      = (.error err, w1)) :
    (r.Read req rem).1.Diagnostics = Diagnostics.Append [] req.State.Get.1 ++
      [⟨.Error, none, "Error Reading Strava Subscription",
        "Could not read Strava subscription ID "
          ++ string (rune req.State.Get.2.ID.ValueInt64) ++ ": " ++ err⟩] := by
  have h0 : (Diagnostics.Append [] req.State.Get.1).HasError = false := by
    rw [Diagnostics.HasError_Append_nil]; exact hget
  unfold pushSubscriptionResource.Read
  simp only [resource.Response.init, h0, Bool.false_eq_true, if_false,
    strava.Client.callGet, hg, Diagnostics.AddError_eq _ h0]

theorem string_data_length (r : Int) : (string r).data.length = 1 := by
  unfold string
  split <;> rfl

/-- Go `string(rune(n))` is never the decimal text of `n`: it is one
character, the one with code point `n` when there is one. -/
theorem string_rune_ne_decimal (n : Int) : string (rune n) ≠ decimal n := by
  intro e
  have hlen : (decimal n).data.length = 1 := by rw [← e]; exact string_data_length _
  obtain ⟨hne, hall, hval⟩ := toDigits_decimal n.natAbs
  rw [decimal_data] at hlen
  by_cases hn : n < 0
  · rw [if_pos hn, List.length_cons] at hlen
    have : (Nat.toDigits 10 n.natAbs).length = 0 := by omega
    exact hne (List.length_eq_zero.mp this)
  · rw [if_neg hn] at hlen
    obtain ⟨c, hc⟩ := List.length_eq_one.mp hlen
    have hdig : isDecimalDigit c := hall c (by rw [hc]; simp)
    rw [hc] at hval
    have hv : c.toNat - 48 = n.natAbs := by simpa [digitsValue] using hval
    unfold isDecimalDigit at hdig
    have h9 : n ≤ 9 := by omega
    have h0 : 0 ≤ n := by omega
    revert e
    interval_cases n <;> decide

/-- Claim C12, evaluated on the code: for the state id 65 and a client whose
`GetSubscription` fails with the error `gone`, the detail `Read` reports is
`Could not read Strava subscription ID A: gone`: it carries the one character
with code point 65 where the claim has the decimal text `65`. -/
theorem Read_failure_detail_at_65 :
    ((⟨strava.fixedClient (.ok exampleRecord) (.error "gone") (.ok []) none⟩ :
        pushSubscriptionResource Unit).Read
          ⟨⟨([], { exampleState with ID := .Value 65 })⟩⟩ ⟨(), []⟩).1.Diagnostics =
      [⟨.Error, none, "Error Reading Strava Subscription",
        "Could not read Strava subscription ID A: gone"⟩] ∧
    "Could not read Strava subscription ID " ++ decimal 65 ++ ": " ++ "gone"
      = "Could not read Strava subscription ID 65: gone" ∧
    ("Could not read Strava subscription ID A: gone" : String)
      ≠ "Could not read Strava subscription ID 65: gone" :=
  ⟨rfl, by decide, by decide⟩
